import Mathlib

/-!
# BexEngine: frame pacing and graphics-device lifecycle

A shallow embedding of `src/BexEngine/game.cpp`, `src/BexEngine/graphics.cpp`
and `src/BexEngine/constants.h`.

Conventions of the embedding

* The objects `Game` and `GraphicsSystem` are records; a member function is a
  function from the record (and the answers of the outside world for that
  call) to the new record.
* Every call that leaves `Game` (host callbacks, input system, graphics
  system, Win32 timing and message functions) is appended to `Game.trace`, in
  program order; the Direct3D calls of `GraphicsSystem::initialize` are
  returned in `Outcome.events`. Host callbacks (`update`, `ai`, `collisions`,
  `render`, `releaseAll`, `resetAll`) are pure virtual or empty in `Game`; they
  are recorded as events and do not touch the fields of the core.
* `HRESULT` is a signed 32 bit value, embedded in `Int`; `FAILED` is `< 0`.
* `float` is IEEE 754 binary32 (`F32`): a finite value is the rational it
  denotes, every arithmetic result is rounded to nearest, ties to even, with
  overflow to an infinity; infinities and NaN are values. The two zeros are
  not told apart: no operation of the embedded code depends on the sign of a
  zero.
* A call through `device3d` is recorded together with the answer of the
  backend; the embedding does not model a call through a null pointer.
-/

namespace BexEngine

/-! ## Win32 / Direct3D constants used by the sources -/

abbrev HRESULT := Int
abbrev UINT := Nat
abbrev DWORD := Nat
abbrev WPARAM := Nat
abbrev HWND := Nat

/-- Macro `FAILED(hr)` of winerror.h: `((HRESULT)(hr)) < 0`. -/
def FAILED (hr : HRESULT) : Bool := decide (hr < 0)

/-- Macro `SUCCEEDED(hr)` of winerror.h: `((HRESULT)(hr)) >= 0`. -/
def SUCCEEDED (hr : HRESULT) : Bool := decide (0 ≤ hr)

def D3D_OK : HRESULT := 0
/-- Value `0x80004005` read as a signed 32 bit integer. -/
def E_FAIL : HRESULT := 0x80004005 - 2 ^ 32
/-- Value `MAKE_D3DHRESULT(2152) = 0x88760868`. -/
def D3DERR_DEVICELOST : HRESULT := 0x88760868 - 2 ^ 32
/-- Value `MAKE_D3DHRESULT(2153) = 0x88760869`. -/
def D3DERR_DEVICENOTRESET : HRESULT := 0x88760869 - 2 ^ 32

def D3DFMT_UNKNOWN : UINT := 0
def D3DFMT_X8R8G8B8 : UINT := 22
def D3DSWAPEFFECT_DISCARD : UINT := 1
def D3DPRESENT_INTERVAL_IMMEDIATE : UINT := 0x80000000
def D3DCREATE_SOFTWARE_VERTEXPROCESSING : DWORD := 0x20
def D3DCREATE_HARDWARE_VERTEXPROCESSING : DWORD := 0x40
def D3DDEVCAPS_HWTRANSFORMANDLIGHT : DWORD := 0x10000
/-- Macro `D3DVS_VERSION(major, minor)`: `0xFFFE0000 | (major << 8) | minor`. -/
def D3DVS_VERSION (major minor : Nat) : DWORD := 0xFFFE0000 ||| (major <<< 8) ||| minor
def WM_QUIT : UINT := 0x12

/-! ## The type `float` -/

/-- A value of the C++ type `float` (IEEE 754 binary32): a finite value, given by the
rational it denotes, one of the two infinities, or a NaN. -/
inductive F32 where
  | fin (q : ℚ)
  | pinf
  | ninf
  | nan
  deriving DecidableEq

/-- Nearest integer of a non-negative rational, ties to the even one. -/
def roundHalfEven (t : ℚ) : Int :=
  if t - Int.floor t < 1 / 2 then Int.floor t
  else if 1 / 2 < t - Int.floor t then Int.floor t + 1
  else if Int.floor t % 2 = 0 then Int.floor t else Int.floor t + 1

/-- Rounding of an exact result to binary32, to nearest, ties to even. The exponent is
that of the binade of `x`, not below -126; the result is a multiple of `2 ^ (e - 23)`
(24 significant bits, spacing `2 ^ -149` in the subnormal range); a rounded magnitude of
`2 ^ 128` or more is an infinity. -/
def F32.round (x : ℚ) : F32 :=
  if x = 0 then F32.fin 0
  else if 2 ^ 128 ≤
      (roundHalfEven (|x| / 2 ^ (max (Int.log 2 |x|) (-126) - 23)) : ℚ) *
        2 ^ (max (Int.log 2 |x|) (-126) - 23) then
    (if 0 < x then F32.pinf else F32.ninf)
  else if 0 < x then
    F32.fin ((roundHalfEven (|x| / 2 ^ (max (Int.log 2 |x|) (-126) - 23)) : ℚ) *
      2 ^ (max (Int.log 2 |x|) (-126) - 23))
  else
    F32.fin (-((roundHalfEven (|x| / 2 ^ (max (Int.log 2 |x|) (-126) - 23)) : ℚ) *
      2 ^ (max (Int.log 2 |x|) (-126) - 23)))

/-- Conversion `(float)i` of an integer. -/
def F32.ofInt (i : Int) : F32 := F32.round (i : ℚ)

/-- Unary minus. -/
def F32.neg : F32 → F32
  | F32.fin x => F32.fin (-x)
  | F32.pinf => F32.ninf
  | F32.ninf => F32.pinf
  | F32.nan => F32.nan

/-- Operator `+` on `float`. -/
def F32.add : F32 → F32 → F32
  | F32.nan, _ => F32.nan
  | _, F32.nan => F32.nan
  | F32.fin x, F32.fin y => F32.round (x + y)
  | F32.pinf, F32.ninf => F32.nan
  | F32.ninf, F32.pinf => F32.nan
  | F32.pinf, _ => F32.pinf
  | F32.ninf, _ => F32.ninf
  | F32.fin _, F32.pinf => F32.pinf
  | F32.fin _, F32.ninf => F32.ninf

/-- Operator `-` on `float`. -/
def F32.sub (a b : F32) : F32 := F32.add a (F32.neg b)

/-- Operator `*` on `float`. -/
def F32.mul : F32 → F32 → F32
  | F32.nan, _ => F32.nan
  | _, F32.nan => F32.nan
  | F32.fin x, F32.fin y => F32.round (x * y)
  | F32.fin x, F32.pinf => if x = 0 then F32.nan else if 0 < x then F32.pinf else F32.ninf
  | F32.fin x, F32.ninf => if x = 0 then F32.nan else if 0 < x then F32.ninf else F32.pinf
  | F32.pinf, F32.fin y => if y = 0 then F32.nan else if 0 < y then F32.pinf else F32.ninf
  | F32.ninf, F32.fin y => if y = 0 then F32.nan else if 0 < y then F32.ninf else F32.pinf
  | F32.pinf, F32.pinf => F32.pinf
  | F32.ninf, F32.ninf => F32.pinf
  | F32.pinf, F32.ninf => F32.ninf
  | F32.ninf, F32.pinf => F32.ninf

/-- Operator `/` on `float`. A zero divisor is a positive zero: the divisors of the
embedded code are a converted integer and a frame time that has passed `> 0`. -/
def F32.div : F32 → F32 → F32
  | F32.nan, _ => F32.nan
  | _, F32.nan => F32.nan
  | F32.fin x, F32.fin y =>
    if y = 0 then (if x = 0 then F32.nan else if 0 < x then F32.pinf else F32.ninf)
    else F32.round (x / y)
  | F32.fin _, F32.pinf => F32.fin 0
  | F32.fin _, F32.ninf => F32.fin 0
  | F32.pinf, F32.fin y => if 0 ≤ y then F32.pinf else F32.ninf
  | F32.ninf, F32.fin y => if 0 ≤ y then F32.ninf else F32.pinf
  | F32.pinf, F32.pinf => F32.nan
  | F32.pinf, F32.ninf => F32.nan
  | F32.ninf, F32.pinf => F32.nan
  | F32.ninf, F32.ninf => F32.nan

/-- Operator `<` on `float`: false as soon as one side is a NaN. -/
def F32.lt : F32 → F32 → Bool
  | F32.nan, _ => false
  | _, F32.nan => false
  | F32.fin x, F32.fin y => decide (x < y)
  | F32.ninf, F32.ninf => false
  | F32.ninf, _ => true
  | F32.pinf, _ => false
  | F32.fin _, F32.pinf => true
  | F32.fin _, F32.ninf => false

/-- Operator `<=` on `float`: false as soon as one side is a NaN. -/
def F32.le : F32 → F32 → Bool
  | F32.nan, _ => false
  | _, F32.nan => false
  | F32.fin x, F32.fin y => decide (x ≤ y)
  | F32.ninf, _ => true
  | F32.pinf, F32.pinf => true
  | F32.pinf, _ => false
  | F32.fin _, F32.pinf => true
  | F32.fin _, F32.ninf => false

/-- The value is finite: neither an infinity nor a NaN, and within the range of `float`. -/
def F32.isFinite : F32 → Bool
  | F32.fin q => decide (|q| < 2 ^ 128)
  | _ => false

/-- The lesser of two values as `if (b < a) b else a` computes it. -/
def F32.min (a b : F32) : F32 := if F32.lt b a then b else a

/-- Conversion `(DWORD)x` of a `float`: truncation toward zero. C++ leaves the conversion
undefined when the truncated value is not a `DWORD` (out of range, infinity, NaN); the
embedding returns 0 there. -/
def toDWORD : F32 → DWORD
  | F32.fin x => if 0 ≤ x ∧ x < 2 ^ 32 then (Int.floor x).toNat else 0
  | _ => 0

/-! ## constants.h -/

def FULLSCREEN : Bool := false
def GAME_WIDTH : UINT := 640
def GAME_HEIGHT : UINT := 480
/-- Literal `200.0f`. -/
def FRAME_RATE : F32 := F32.fin 200
/-- Literal `10.0f`. -/
def MIN_FRAME_RATE : F32 := F32.fin 10
/-- Quotient `1.0f / FRAME_RATE`. -/
def MIN_FRAME_TIME : F32 := F32.div (F32.fin 1) FRAME_RATE
/-- Quotient `1.0f / MIN_FRAME_RATE`. -/
def MAX_FRAME_TIME : F32 := F32.div (F32.fin 1) MIN_FRAME_RATE

/-! ## Data model -/

/-- Fields of `D3DPRESENT_PARAMETERS`, in declaration order. -/
structure D3DPRESENT_PARAMETERS where
  BackBufferWidth : UINT
  BackBufferHeight : UINT
  BackBufferFormat : UINT
  BackBufferCount : UINT
  MultiSampleType : UINT
  MultiSampleQuality : DWORD
  SwapEffect : UINT
  hDeviceWindow : HWND
  Windowed : Bool
  EnableAutoDepthStencil : Bool
  AutoDepthStencilFormat : UINT
  Flags : DWORD
  FullScreen_RefreshRateInHz : UINT
  PresentationInterval : UINT
  deriving DecidableEq

/-- Fields of `D3DDISPLAYMODE`. -/
structure D3DDISPLAYMODE where
  Width : UINT
  Height : UINT
  RefreshRate : UINT
  Format : UINT
  deriving DecidableEq

/-- The two fields of `D3DCAPS9` that `handleGraphicsCompatibility` reads. -/
structure D3DCAPS9 where
  DevCaps : DWORD
  VertexShaderVersion : DWORD
  deriving DecidableEq

/-- Severity codes of `gameErrorNS` (gameError.h is not part of the sources;
only `FATAL_ERROR` is used by the code embedded here). -/
inductive Severity where
  | FATAL_ERROR
  | WARNING
  deriving DecidableEq

/-- Exception type `GameError`: a severity and a message. -/
structure GameError where
  errorCode : Severity
  message : String
  deriving DecidableEq

/-- Flags of `inputNS` accepted by `input.clear` (only `KEYS_PRESSED` is used). -/
inductive InputClear where
  | KEYS_PRESSED
  deriving DecidableEq

/-- Win32 `MSG`, restricted to the fields the loop reads or forwards. -/
structure MSG where
  message : UINT
  wParam : WPARAM
  lParam : Int
  deriving DecidableEq

/-- Calls that leave the core, in the order in which the code issues them. -/
inductive Event where
  /- host callbacks (virtual functions of `Game`) -/
  | update
  | ai
  | collisions
  | render
  | releaseAll
  | resetAll
  /- input system -/
  | vibrateControllers (frameTime : F32)
  | readControllers
  | inputClear (what : InputClear)
  /- graphics system, as called by `Game` -/
  | beginScene (hr : HRESULT)
  | endScene (hr : HRESULT)
  | getDeviceState (hr : HRESULT)
  | reset (pp : D3DPRESENT_PARAMETERS) (hr : HRESULT)
  | showBackbuffer (hr : HRESULT)
  /- Direct3D calls of `GraphicsSystem::initialize` -/
  | direct3DCreate9
  | getAdapterModeCount (format : UINT)
  | enumAdapterModes (format : UINT) (i : Nat)
  | getDeviceCaps
  | createDevice (behavior : DWORD) (pp : D3DPRESENT_PARAMETERS)
  /- Win32 timing and messages -/
  | queryPerformanceCounter
  | timeBeginPeriod (ms : Nat)
  | sleep (ms : DWORD)
  | timeEndPeriod (ms : Nat)
  | translateMessage (m : MSG)
  | dispatchMessage (m : MSG)
  deriving DecidableEq

/-- Data members of `GraphicsSystem` used by graphics.cpp. `direct3d` and
`device3d` hold whether the pointer is non-null. -/
structure GraphicsSystem where
  direct3d : Bool
  device3d : Bool
  d3dpp : D3DPRESENT_PARAMETERS
  pMode : D3DDISPLAYMODE
  result : HRESULT
  hwnd : HWND
  fullscreen : Bool
  width : Int
  height : Int
  deriving DecidableEq

/-- Data members of `Game` (game.h), with the trace of outgoing calls. -/
structure Game where
  graphics : GraphicsSystem
  hwnd : HWND
  hr : HRESULT
  timeStart : Int
  timeEnd : Int
  timerFreq : Int
  frameTime : F32
  fps : F32
  sleepTime : DWORD
  paused : Bool
  initialized : Bool
  trace : List Event
  deriving DecidableEq

/-! ## graphics.cpp -/

/-- Conversion of an `int` to `UINT` (assignment `d3dpp.BackBufferWidth = width`). -/
def toUINT (i : Int) : UINT := (i % 2 ^ 32).toNat

/-- Embedding of `GraphicsSystem::GraphicsSystem`: both pointers are null, windowed,
default size. The members the constructor leaves uninitialised (`d3dpp`,
`pMode`, `result`, `hwnd`) are arguments. -/
def GraphicsSystem.new (d3dpp : D3DPRESENT_PARAMETERS) (pMode : D3DDISPLAYMODE)
    (result : HRESULT) (hwnd : HWND) : GraphicsSystem :=
  { direct3d := false, device3d := false, d3dpp := d3dpp, pMode := pMode,
    result := result, hwnd := hwnd, fullscreen := false,
    width := GAME_WIDTH, height := GAME_HEIGHT }

/-- Embedding of `GraphicsSystem::initD3DPresentaionParameters`: `ZeroMemory` on
`d3dpp`, then the eight assignments. -/
def initD3DPresentaionParameters (gs : GraphicsSystem) : GraphicsSystem :=
  { gs with d3dpp :=
      { BackBufferWidth := toUINT gs.width
        BackBufferHeight := toUINT gs.height
        BackBufferFormat := if gs.fullscreen then D3DFMT_X8R8G8B8 else D3DFMT_UNKNOWN
        BackBufferCount := 1
        MultiSampleType := 0
        MultiSampleQuality := 0
        SwapEffect := D3DSWAPEFFECT_DISCARD
        hDeviceWindow := gs.hwnd
        Windowed := !gs.fullscreen
        EnableAutoDepthStencil := false
        AutoDepthStencilFormat := 0
        Flags := 0
        FullScreen_RefreshRateInHz := 0
        PresentationInterval := D3DPRESENT_INTERVAL_IMMEDIATE } }

/-- Embedding of `GraphicsSystem::showBackbuffer`; `present` is what
`device3d->Present` returns. -/
def showBackbuffer (gs : GraphicsSystem) (present : HRESULT) : HRESULT × GraphicsSystem :=
  (present, { gs with result := present })

/-- Embedding of `GraphicsSystem::getDeviceState`; `coop` is what
`device3d->TestCooperativeLevel` returns when there is a device. -/
def getDeviceState (gs : GraphicsSystem) (coop : HRESULT) : HRESULT × GraphicsSystem :=
  if gs.device3d = false then (E_FAIL, { gs with result := E_FAIL })
  else (coop, { gs with result := coop })

/-- Embedding of `GraphicsSystem::reset`; `resetResult` is what `device3d->Reset(&d3dpp)`
returns. The third component is the configuration handed to the backend. -/
def reset (gs : GraphicsSystem) (resetResult : HRESULT) :
    HRESULT × GraphicsSystem × D3DPRESENT_PARAMETERS :=
  let gs := initD3DPresentaionParameters { gs with result := E_FAIL }
  (resetResult, { gs with result := resetResult }, gs.d3dpp)

/-- Refresh rate against which `initialize` checks the adapter modes: the field
`FullScreen_RefreshRateInHz` of the configuration computed just before the check. -/
def requestedRefreshRate (gs : GraphicsSystem) : UINT :=
  (initD3DPresentaionParameters gs).d3dpp.FullScreen_RefreshRateInHz

/-- Test of the loop body of `isAdapterCompatible` on the mode just enumerated. -/
def modeMatches (pp : D3DPRESENT_PARAMETERS) (m : D3DDISPLAYMODE) : Bool :=
  decide (m.Height = pp.BackBufferHeight) && decide (m.Width = pp.BackBufferWidth) &&
    decide (m.RefreshRate ≥ pp.FullScreen_RefreshRateInHz)

/-- Loop of `isAdapterCompatible` from index `i` on: `modes` are the modes that
`EnumAdapterModes` still has to return (it succeeds for every index below
`GetAdapterModeCount`). -/
def isAdapterCompatibleLoop (gs : GraphicsSystem) :
    Nat → List D3DDISPLAYMODE → Bool × GraphicsSystem × List Event
  | _, [] => (false, gs, [])
  | i, m :: rest =>
    let gs1 := { gs with result := D3D_OK, pMode := m }
    if modeMatches gs1.d3dpp m then
      (true, gs1, [Event.enumAdapterModes gs.d3dpp.BackBufferFormat i])
    else
      let r := isAdapterCompatibleLoop gs1 (i + 1) rest
      (r.1, r.2.1, Event.enumAdapterModes gs.d3dpp.BackBufferFormat i :: r.2.2)

/-- Embedding of `GraphicsSystem::isAdapterCompatible`; `adapterModes fmt` is the list
of display modes of the default adapter for format `fmt`. -/
def isAdapterCompatible (gs : GraphicsSystem) (adapterModes : UINT → List D3DDISPLAYMODE) :
    Bool × GraphicsSystem × List Event :=
  let r := isAdapterCompatibleLoop gs 0 (adapterModes gs.d3dpp.BackBufferFormat)
  (r.1, r.2.1, Event.getAdapterModeCount gs.d3dpp.BackBufferFormat :: r.2.2)

/-- Answers of Direct3D during one `GraphicsSystem::initialize`. -/
structure InitEnv where
  /-- whether `Direct3DCreate9` returns a non-null interface -/
  direct3DCreate9 : Bool
  /-- display modes of the default adapter, per format -/
  adapterModes : UINT → List D3DDISPLAYMODE
  /-- what `GetDeviceCaps` returns -/
  getDeviceCaps : HRESULT
  /-- content of `caps` after `GetDeviceCaps` -/
  caps : D3DCAPS9
  /-- what `CreateDevice` returns -/
  createDevice : HRESULT

/-- Result of a call that may throw: the object as the call leaves it, the calls
issued, and the exception when one was thrown. -/
structure Outcome (α : Type) where
  graphics : GraphicsSystem
  events : List Event
  value : Except GameError α

/-- Embedding of `GraphicsSystem::handleGraphicsCompatibility`. -/
def handleGraphicsCompatibility (gs : GraphicsSystem) (env : InitEnv) : Outcome DWORD :=
  let checked : Outcome Unit :=
    if gs.fullscreen then
      let r := isAdapterCompatible gs env.adapterModes
      if r.1 then
        { graphics :=
            { r.2.1 with d3dpp :=
                { r.2.1.d3dpp with FullScreen_RefreshRateInHz := r.2.1.pMode.RefreshRate } }
          events := r.2.2
          value := .ok () }
      else
        { graphics := r.2.1
          events := r.2.2
          value := .error ⟨Severity.FATAL_ERROR,
            "The graphics device does not support the specified resolution and/or format."⟩ }
    else { graphics := gs, events := [], value := .ok () }
  match checked.value with
  | .error e => { graphics := checked.graphics, events := checked.events, value := .error e }
  | .ok _ =>
    let gs1 := { checked.graphics with result := env.getDeviceCaps }
    let behavior :=
      if (env.caps.DevCaps &&& D3DDEVCAPS_HWTRANSFORMANDLIGHT) = 0 ∨
          env.caps.VertexShaderVersion < D3DVS_VERSION 1 1 then
        D3DCREATE_SOFTWARE_VERTEXPROCESSING
      else D3DCREATE_HARDWARE_VERTEXPROCESSING
    { graphics := gs1, events := checked.events ++ [Event.getDeviceCaps], value := .ok behavior }

/-- Embedding of `GraphicsSystem::initialize`. -/
def GraphicsSystem.initialize (gs : GraphicsSystem) (hw : HWND) (w h : Int) (full : Bool)
    (env : InitEnv) : Outcome Unit :=
  let gs := { gs with hwnd := hw, width := w, height := h, fullscreen := full }
  let gs := { gs with direct3d := env.direct3DCreate9 }
  if gs.direct3d = false then
    { graphics := gs, events := [Event.direct3DCreate9],
      value := .error ⟨Severity.FATAL_ERROR, "Error initializing Direct3D"⟩ }
  else
    let gs := initD3DPresentaionParameters gs
    let c := handleGraphicsCompatibility gs env
    match c.value with
    | .error e =>
      { graphics := c.graphics, events := Event.direct3DCreate9 :: c.events, value := .error e }
    | .ok behavior =>
      let gs := c.graphics
      let gs := { gs with result := env.createDevice,
                          device3d := if SUCCEEDED env.createDevice then true else gs.device3d }
      let events := Event.direct3DCreate9 :: c.events ++ [Event.createDevice behavior gs.d3dpp]
      if FAILED gs.result then
        { graphics := gs, events := events,
          value := .error ⟨Severity.FATAL_ERROR, "Error creating Direct3D device"⟩ }
      else { graphics := gs, events := events, value := .ok () }

/-! ## game.cpp -/

/-- Answers of the outside world during one call of `Game::run`: the counter value
read by `QueryPerformanceCounter` and what each backend call returns if it is made. -/
structure TickEnv where
  now : Int
  beginScene : HRESULT
  endScene : HRESULT
  testCooperativeLevel : HRESULT
  deviceReset : HRESULT
  present : HRESULT
  deriving DecidableEq

/-- Embedding of `Game::Game`: the constructor sets `paused` and `initialized` to false and
nothing else. Every other member, `fps` among them, keeps what the memory holds and is
an argument here; `graphics` is what `GraphicsSystem::GraphicsSystem` built. -/
def Game.new (graphics : GraphicsSystem) (hwnd : HWND) (hr : HRESULT)
    (timeStart timeEnd timerFreq : Int) (frameTime fps : F32) (sleepTime : DWORD) : Game :=
  { graphics := graphics, hwnd := hwnd, hr := hr, timeStart := timeStart, timeEnd := timeEnd,
    timerFreq := timerFreq, frameTime := frameTime, fps := fps, sleepTime := sleepTime,
    paused := false, initialized := false, trace := [] }

/-- Append outgoing calls to the trace. -/
def Game.emit (g : Game) (es : List Event) : Game := { g with trace := g.trace ++ es }

/-- Embedding of `Game::handleLostGraphicsDevice`. -/
def handleLostGraphicsDevice (g : Game) (env : TickEnv) : Game :=
  let q := getDeviceState g.graphics env.testCooperativeLevel
  let g := { g with hr := q.1, graphics := q.2, trace := g.trace ++ [Event.getDeviceState q.1] }
  if FAILED g.hr then
    if g.hr = D3DERR_DEVICELOST then
      g.emit [Event.sleep 100]
    else if g.hr = D3DERR_DEVICENOTRESET then
      let g := g.emit [Event.releaseAll]
      let r := reset g.graphics env.deviceReset
      let g := { g with hr := r.1, graphics := r.2.1,
                        trace := g.trace ++ [Event.reset r.2.2 r.1] }
      if FAILED g.hr then g
      else g.emit [Event.resetAll]
    else g
  else g

/-- Embedding of `Game::renderGame`. `beginScene` and `endScene` are defined in graphics.h,
which is not part of the sources: their return values are taken from `env`. -/
def renderGame (g : Game) (env : TickEnv) : Game :=
  let g := g.emit [Event.beginScene env.beginScene]
  let g :=
    if SUCCEEDED env.beginScene then g.emit [Event.render, Event.endScene env.endScene]
    else g
  let g := handleLostGraphicsDevice g env
  let p := showBackbuffer g.graphics env.present
  { g with graphics := p.2, trace := g.trace ++ [Event.showBackbuffer p.1] }

/-- Elapsed time computed by the first statement of `timeToUpdate`: both 64 bit integers
are converted to `float`, then divided. -/
def elapsed (g : Game) (now : Int) : F32 :=
  F32.div (F32.ofInt (now - g.timeStart)) (F32.ofInt g.timerFreq)

/-- Embedding of `Game::timeToUpdate`; `now` is the value read by `QueryPerformanceCounter`.
The literals `0.99f` and `0.01f` are the roundings of 99/100 and 1/100, `1000` is
converted to `float`, and `0.0` is compared exactly. -/
def timeToUpdate (g : Game) (now : Int) : Bool × Game :=
  let g := { g with timeEnd := now, trace := g.trace ++ [Event.queryPerformanceCounter] }
  let g :=
    { g with frameTime := F32.div (F32.ofInt (g.timeEnd - g.timeStart)) (F32.ofInt g.timerFreq) }
  if F32.lt g.frameTime MIN_FRAME_TIME then
    let ms := toDWORD (F32.mul (F32.sub MIN_FRAME_TIME g.frameTime) (F32.ofInt 1000))
    let g := { g with sleepTime := ms }
    (false, g.emit [Event.timeBeginPeriod 1, Event.sleep g.sleepTime, Event.timeEndPeriod 1])
  else
    let fps1 :=
      F32.add (F32.mul g.fps (F32.round (99 / 100))) (F32.div (F32.round (1 / 100)) g.frameTime)
    let g := if F32.lt (F32.fin 0) g.frameTime then { g with fps := fps1 } else g
    let g :=
      if F32.lt MAX_FRAME_TIME g.frameTime then { g with frameTime := MAX_FRAME_TIME } else g
    (true, { g with timeStart := g.timeEnd })

/-- Embedding of `Game::run`. -/
def run (g : Game) (env : TickEnv) : Game :=
  let t := timeToUpdate g env.now
  if t.1 = false then t.2
  else
    let g := t.2
    let g :=
      if g.paused = false then
        g.emit [Event.update, Event.ai, Event.collisions, Event.vibrateControllers g.frameTime]
      else g
    let g := renderGame g env
    g.emit [Event.readControllers, Event.inputClear InputClear.KEYS_PRESSED]

/-- What one iteration of the message loop finds: `PeekMessage` removed a message, or
the queue was empty and the iteration ticks with the given answers. -/
inductive LoopInput where
  | message (m : MSG)
  | idle (env : TickEnv)
  deriving DecidableEq

/-- Body of the `while (running)` loop of `gameLoop`, on the locals `running`, `msg`. -/
def gameLoopBody (g : Game) (msg : MSG) : LoopInput → Bool × MSG × Game
  | .message m =>
    let running := if m.message = WM_QUIT then false else true
    (running, m, g.emit [Event.translateMessage m, Event.dispatchMessage m])
  | .idle env => (true, msg, run g env)

/-- The `while (running)` loop of `gameLoop`: `none` when the inputs are used up while
`running` is still true; otherwise the value returned, the game, and the inputs
that were not consumed. -/
def gameLoopWhile : Bool → MSG → Game → List LoopInput → Option (WPARAM × Game × List LoopInput)
  | false, msg, g, rest => some (msg.wParam, g, rest)
  | true, _, _, [] => none
  | true, msg, g, i :: rest =>
    let r := gameLoopBody g msg i
    gameLoopWhile r.1 r.2.1 r.2.2 rest

/-- Embedding of `Game::gameLoop`; `msg0` is the initial content of the local `msg`. -/
def gameLoop (g : Game) (msg0 : MSG) (inputs : List LoopInput) :
    Option (WPARAM × Game × List LoopInput) :=
  gameLoopWhile true msg0 g inputs

/-- Modelled from the spec: the four states Healthy, Lost, LostNotReset, Failed of the
device lifecycle (the code has no such type, it branches on the raw status). -/
inductive DeviceHealth where
  | Healthy
  | Lost
  | LostNotReset
  | Failed
  deriving DecidableEq

/-- Modelled from the spec: mapping of a raw status into the four states, along the
branches of `handleLostGraphicsDevice`. -/
def deviceHealth (hr : HRESULT) : DeviceHealth :=
  if FAILED hr then
    if hr = D3DERR_DEVICELOST then DeviceHealth.Lost
    else if hr = D3DERR_DEVICENOTRESET then DeviceHealth.LostNotReset
    else DeviceHealth.Failed
  else DeviceHealth.Healthy

/-! ## Observation of traces -/

/-- Calls issued between two states of the game. -/
def newEvents (before after : Game) : List Event := after.trace.drop before.trace.length

/-- The three recovery actions: release callback, graphics reset, recreate callback. -/
def Event.isRecovery : Event → Bool
  | .releaseAll => true
  | .reset _ _ => true
  | .resetAll => true
  | _ => false

def Event.isUpdate : Event → Bool
  | .update => true
  | _ => false

def Event.isAi : Event → Bool
  | .ai => true
  | _ => false

def Event.isCollisions : Event → Bool
  | .collisions => true
  | _ => false

def Event.isRender : Event → Bool
  | .render => true
  | _ => false

def Event.isReadControllers : Event → Bool
  | .readControllers => true
  | _ => false

/-- Call `input.clear(inputNS::KEYS_PRESSED)`. -/
def Event.isClearKeysPressed : Event → Bool
  | .inputClear InputClear.KEYS_PRESSED => true
  | _ => false

def Event.isQueryCounter : Event → Bool
  | .queryPerformanceCounter => true
  | _ => false

def Event.isReset : Event → Bool
  | .reset _ _ => true
  | _ => false

def Event.isGetDeviceState : Event → Bool
  | .getDeviceState _ => true
  | _ => false

def Event.isShowBackbuffer : Event → Bool
  | .showBackbuffer _ => true
  | _ => false

def Event.isBeginScene : Event → Bool
  | .beginScene _ => true
  | _ => false

def Event.isEndScene : Event → Bool
  | .endScene _ => true
  | _ => false

def Event.isVibrate : Event → Bool
  | .vibrateControllers _ => true
  | _ => false

def Event.isInputClear : Event → Bool
  | .inputClear _ => true
  | _ => false

def Event.isDispatch : Event → Bool
  | .dispatchMessage _ => true
  | _ => false

def Event.isCreateDevice : Event → Bool
  | .createDevice _ _ => true
  | _ => false

/-- Calls of the fullscreen mode check: `GetAdapterModeCount`, `EnumAdapterModes`. -/
def Event.isModeCheck : Event → Bool
  | .getAdapterModeCount _ => true
  | .enumAdapterModes _ _ => true
  | _ => false

/-- The iteration removes the shutdown message `WM_QUIT` from the queue. -/
def LoopInput.isQuit : LoopInput → Bool
  | .message m => decide (m.message = WM_QUIT)
  | .idle _ => false

/-- The iteration finds a pending message. -/
def LoopInput.isMessage : LoopInput → Bool
  | .message _ => true
  | .idle _ => false

/-- Locals and game after running the loop body on each input, whatever `running` says. -/
def iterations (g : Game) (msg : MSG) (inputs : List LoopInput) : MSG × Game :=
  inputs.foldl (fun s i => (gameLoopBody s.2 s.1 i).2) (msg, g)

/-- The mode has the given width and height. -/
def sizeMatches (width height : UINT) (m : D3DDISPLAYMODE) : Bool :=
  decide (m.Width = width) && decide (m.Height = height)

/-- Configurations handed to `CreateDevice` in a list of calls. -/
def createdWith : List Event → List D3DPRESENT_PARAMETERS
  | [] => []
  | .createDevice _ pp :: es => pp :: createdWith es
  | _ :: es => createdWith es

/-- Health observed at each device-state query of a trace. -/
def observedStates : List Event → List DeviceHealth
  | [] => []
  | .getDeviceState hr :: es => deviceHealth hr :: observedStates es
  | _ :: es => observedStates es

/-- Calls of the begin/draw/end part of `renderGame`: the draw and the end are made
only when `beginScene` succeeded. -/
def sceneEvents (env : TickEnv) : List Event :=
  Event.beginScene env.beginScene ::
    (if SUCCEEDED env.beginScene then [Event.render, Event.endScene env.endScene] else [])

/-- Calls of one `handleLostGraphicsDevice` on a graphics system, branch by branch: the
query; on "lost" the sleep; on "lost, resettable" the release, the reset with the
recomputed configuration and, when the reset did not fail, the recreate. -/
def handlerEvents (gs : GraphicsSystem) (env : TickEnv) : List Event :=
  Event.getDeviceState (getDeviceState gs env.testCooperativeLevel).1 ::
    (if (getDeviceState gs env.testCooperativeLevel).1 = D3DERR_DEVICELOST then
      [Event.sleep 100]
    else if (getDeviceState gs env.testCooperativeLevel).1 = D3DERR_DEVICENOTRESET then
      Event.releaseAll ::
        Event.reset (initD3DPresentaionParameters gs).d3dpp env.deviceReset ::
        (if FAILED env.deviceReset then [] else [Event.resetAll])
    else [])

/-- Calls of the simulation part of `run`. -/
def simulationEvents (paused : Bool) (frameTime : F32) : List Event :=
  if paused = false then
    [Event.update, Event.ai, Event.collisions, Event.vibrateControllers frameTime]
  else []

/-- Consecutive calls of the handler, one per tick. -/
def handleTicks (g : Game) (envs : List TickEnv) : Game := envs.foldl handleLostGraphicsDevice g

/-- Verdicts of consecutive calls of `timeToUpdate` on the counter values read: `none` for
"not yet", `some frameTime` for "proceed" with the frame time it leaves. -/
def tickResults (g : Game) : List Int → List (Option F32)
  | [] => []
  | now :: rest =>
    let t := timeToUpdate g now
    (if t.1 then some t.2.frameTime else none) :: tickResults t.2 rest

/-! ## Concrete inputs -/

/-- A game after a successful windowed initialisation: device present, counter at 0,
frequency 1000 ticks per second. -/
def sampleGame : Game :=
  { graphics :=
      { direct3d := true, device3d := true,
        d3dpp := ⟨640, 480, 0, 1, 0, 0, 1, 7, true, false, 0, 0, 0, 0x80000000⟩,
        pMode := ⟨0, 0, 0, 0⟩, result := 0, hwnd := 7, fullscreen := false,
        width := 640, height := 480 },
    hwnd := 7, hr := 0, timeStart := 0, timeEnd := 0, timerFreq := 1000,
    frameTime := F32.fin 0, fps := F32.fin 0, sleepTime := 0, paused := false,
    initialized := true, trace := [] }

/-- Consecutive ticks with the same answers of the outside world. -/
def repeatTick (env : TickEnv) (n : Nat) (g : Game) : Game :=
  (fun s => handleLostGraphicsDevice s env)^[n] g

/-- A tick 20 ms after the start in which every backend call succeeds. -/
def sampleEnv : TickEnv :=
  { now := 20, beginScene := 0, endScene := 0, testCooperativeLevel := 0,
    deviceReset := 0, present := 0 }

/-- A tick in which the device is lost and can be reset, and the reset succeeds. -/
def resettableEnv : TickEnv := { sampleEnv with testCooperativeLevel := D3DERR_DEVICENOTRESET }

/-- A tick in which the device is lost and can be reset, and the reset fails. -/
def resetFailsEnv : TickEnv :=
  { sampleEnv with testCooperativeLevel := D3DERR_DEVICENOTRESET, deviceReset := E_FAIL }

/-- Answers of Direct3D on an adapter whose only 32 bit mode is 800 x 600 at 60 Hz. -/
def oneModeEnv : InitEnv :=
  { direct3DCreate9 := true
    adapterModes := fun fmt => if fmt = D3DFMT_X8R8G8B8 then [⟨800, 600, 60, 22⟩] else []
    getDeviceCaps := 0
    caps := ⟨0x10000, 0xFFFE0300⟩
    createDevice := 0 }

/-- Answers of Direct3D on an adapter with the 32 bit modes 800 x 600 at 60 Hz, 640 x 480 at
60 Hz and 640 x 480 at 75 Hz, in this order. -/
def threeModeEnv : InitEnv :=
  { oneModeEnv with
    adapterModes := fun fmt =>
      if fmt = D3DFMT_X8R8G8B8 then
        [⟨800, 600, 60, 22⟩, ⟨640, 480, 60, 22⟩, ⟨640, 480, 75, 22⟩]
      else [] }

/-- A graphics system as the constructor leaves it. -/
def freshGraphics : GraphicsSystem :=
  GraphicsSystem.new ⟨0, 0, 0, 0, 0, 0, 0, 0, false, false, 0, 0, 0, 0⟩ ⟨0, 0, 0, 0⟩ 0 0

/-- A game as the constructors leave it, where the memory of `fps` held 30 and the counter
runs at 1000 ticks per second from 0. -/
def constructedGame : Game :=
  Game.new freshGraphics 7 0 0 0 1000 (F32.fin 0) (F32.fin 30) 0

/-- The sample graphics system with another content of `d3dpp` and `pMode`: the
configuration `initialize` leaves in fullscreen at 75 Hz. -/
def staleGraphics : GraphicsSystem :=
  { sampleGame.graphics with
    d3dpp := ⟨800, 600, 22, 1, 0, 0, 1, 9, false, false, 0, 0, 75, 0x80000000⟩
    pMode := ⟨800, 600, 75, 22⟩ }

/-- A keyboard message (`WM_KEYDOWN`, escape key). -/
def keyMessage : MSG := { message := 0x100, wParam := 0x1B, lParam := 0 }

/-- The shutdown message posted by `PostQuitMessage(3)`. -/
def quitMessage : MSG := { message := WM_QUIT, wParam := 3, lParam := 0 }

/-- A tick in which `beginScene` fails while the device reports OK. -/
def beginFailsEnv : TickEnv := { sampleEnv with beginScene := E_FAIL }

/-- A tick in which the device is lost and cannot be reset yet. -/
def lostEnv : TickEnv := { sampleEnv with testCooperativeLevel := D3DERR_DEVICELOST }

/-! ## Lemmas on the device-loss handler -/

theorem newEvents_of_trace (g g1 : Game) (es : List Event) (h : g1.trace = g.trace ++ es) :
    newEvents g g1 = es := by
  simp [newEvents, h]

theorem FAILED_DEVICENOTRESET : FAILED D3DERR_DEVICENOTRESET = true := by decide

theorem FAILED_DEVICELOST : FAILED D3DERR_DEVICELOST = true := by decide

theorem DEVICENOTRESET_ne_DEVICELOST : D3DERR_DEVICENOTRESET ≠ D3DERR_DEVICELOST := by decide

/-- A query that reports "lost, resettable" was answered by an existing device. -/
theorem device_of_notreset (gs : GraphicsSystem) (coop : HRESULT)
    (hq : (getDeviceState gs coop).1 = D3DERR_DEVICENOTRESET) :
    gs.device3d = true ∧ coop = D3DERR_DEVICENOTRESET := by
  by_cases hd : gs.device3d = true
  · exact ⟨hd, by simpa [getDeviceState, hd] using hq⟩
  · simp [getDeviceState, hd] at hq
    exact absurd hq (by decide)

/-- The status reported by the query depends on the graphics system only through the
device pointer. -/
theorem getDeviceState_status (gs gs1 : GraphicsSystem) (coop : HRESULT)
    (h : gs1.device3d = gs.device3d) :
    (getDeviceState gs1 coop).1 = (getDeviceState gs coop).1 := by
  unfold getDeviceState
  rw [h]
  split_ifs <;> rfl

/-- The query does not change the device pointer. -/
theorem getDeviceState_device3d (gs : GraphicsSystem) (coop : HRESULT) :
    (getDeviceState gs coop).2.device3d = gs.device3d := by
  unfold getDeviceState
  split_ifs <;> rfl

/-- The recomputed configuration depends only on size, mode flag and window. -/
theorem initD3DPresentaionParameters_d3dpp (gs gs1 : GraphicsSystem)
    (hw : gs1.width = gs.width) (hh : gs1.height = gs.height)
    (hf : gs1.fullscreen = gs.fullscreen) (hwnd : gs1.hwnd = gs.hwnd) :
    (initD3DPresentaionParameters gs1).d3dpp = (initD3DPresentaionParameters gs).d3dpp := by
  simp [initD3DPresentaionParameters, hw, hh, hf, hwnd]

/-- Handler on "lost, resettable" with a successful reset. -/
theorem handle_notreset_ok (g : Game) (env : TickEnv)
    (hq : (getDeviceState g.graphics env.testCooperativeLevel).1 = D3DERR_DEVICENOTRESET)
    (hr : FAILED env.deviceReset = false) :
    (handleLostGraphicsDevice g env).trace = g.trace ++
      [Event.getDeviceState D3DERR_DEVICENOTRESET, Event.releaseAll,
       Event.reset (initD3DPresentaionParameters g.graphics).d3dpp env.deviceReset,
       Event.resetAll]
    ∧ (handleLostGraphicsDevice g env).hr = env.deviceReset
    ∧ (handleLostGraphicsDevice g env).graphics.device3d = true := by
  obtain ⟨hd, hc⟩ := device_of_notreset _ _ hq
  simp [handleLostGraphicsDevice, getDeviceState, hd, hc, FAILED_DEVICENOTRESET,
    DEVICENOTRESET_ne_DEVICELOST, reset, Game.emit, hr, initD3DPresentaionParameters]

/-- Handler on "lost, resettable" with a failing reset. -/
theorem handle_notreset_fail (g : Game) (env : TickEnv)
    (hq : (getDeviceState g.graphics env.testCooperativeLevel).1 = D3DERR_DEVICENOTRESET)
    (hr : FAILED env.deviceReset = true) :
    (handleLostGraphicsDevice g env).trace = g.trace ++
      [Event.getDeviceState D3DERR_DEVICENOTRESET, Event.releaseAll,
       Event.reset (initD3DPresentaionParameters g.graphics).d3dpp env.deviceReset]
    ∧ (handleLostGraphicsDevice g env).hr = env.deviceReset
    ∧ (handleLostGraphicsDevice g env).graphics.device3d = true
    ∧ (initD3DPresentaionParameters (handleLostGraphicsDevice g env).graphics).d3dpp
        = (initD3DPresentaionParameters g.graphics).d3dpp := by
  obtain ⟨hd, hc⟩ := device_of_notreset _ _ hq
  simp [handleLostGraphicsDevice, getDeviceState, hd, hc, FAILED_DEVICENOTRESET,
    DEVICENOTRESET_ne_DEVICELOST, reset, Game.emit, hr, initD3DPresentaionParameters]

/-- Handler on any status other than "lost, resettable": the query, and a sleep when
the status is "lost". -/
theorem handle_other (g : Game) (env : TickEnv)
    (hq : (getDeviceState g.graphics env.testCooperativeLevel).1 ≠ D3DERR_DEVICENOTRESET) :
    ((handleLostGraphicsDevice g env).trace = g.trace ++
        [Event.getDeviceState (getDeviceState g.graphics env.testCooperativeLevel).1]
      ∨ (handleLostGraphicsDevice g env).trace = g.trace ++
        [Event.getDeviceState (getDeviceState g.graphics env.testCooperativeLevel).1,
         Event.sleep 100])
    ∧ (handleLostGraphicsDevice g env).hr = (getDeviceState g.graphics env.testCooperativeLevel).1
    ∧ (handleLostGraphicsDevice g env).graphics.device3d = g.graphics.device3d := by
  have hd := getDeviceState_device3d g.graphics env.testCooperativeLevel
  by_cases hF : FAILED (getDeviceState g.graphics env.testCooperativeLevel).1 = true
  · by_cases hL : (getDeviceState g.graphics env.testCooperativeLevel).1 = D3DERR_DEVICELOST
    · refine ⟨Or.inr ?_, ?_, ?_⟩ <;>
        simp [handleLostGraphicsDevice, Game.emit, hL, hd, FAILED_DEVICELOST]
    · refine ⟨Or.inl ?_, ?_, ?_⟩ <;>
        simp [handleLostGraphicsDevice, Game.emit, hF, hL, hq, hd]
  · refine ⟨Or.inl ?_, ?_, ?_⟩ <;>
      simp [handleLostGraphicsDevice, Game.emit, hF, hd]

/-- Handler on a status that is not a failure: the query only. -/
theorem handle_succeeded (g : Game) (env : TickEnv)
    (hF : FAILED (getDeviceState g.graphics env.testCooperativeLevel).1 = false) :
    (handleLostGraphicsDevice g env).trace = g.trace ++
        [Event.getDeviceState (getDeviceState g.graphics env.testCooperativeLevel).1] := by
  simp [handleLostGraphicsDevice, hF]

/-- Every call of the handler starts with the query and continues with a sleep or with
recovery actions only. -/
theorem handle_trace (g : Game) (env : TickEnv) :
    ∃ tail, (handleLostGraphicsDevice g env).trace = g.trace ++
        Event.getDeviceState (getDeviceState g.graphics env.testCooperativeLevel).1 :: tail
      ∧ (∀ e ∈ tail, e = Event.sleep 100 ∨ e.isRecovery = true)
      ∧ (Event.resetAll ∈ tail ↔
          ((getDeviceState g.graphics env.testCooperativeLevel).1 = D3DERR_DEVICENOTRESET
            ∧ FAILED env.deviceReset = false)) := by
  by_cases hq : (getDeviceState g.graphics env.testCooperativeLevel).1 = D3DERR_DEVICENOTRESET
  · by_cases hr : FAILED env.deviceReset = true
    · refine ⟨_, by rw [(handle_notreset_fail g env hq hr).1, hq], ?_, ?_⟩
      · intro e he; simp at he; rcases he with rfl | rfl <;> simp [Event.isRecovery]
      · simp [hq, hr]
    · have hr2 : FAILED env.deviceReset = false := by simpa using hr
      refine ⟨_, by rw [(handle_notreset_ok g env hq hr2).1, hq], ?_, ?_⟩
      · intro e he; simp at he; rcases he with rfl | rfl | rfl <;> simp [Event.isRecovery]
      · simp [hq, hr2]
  · rcases (handle_other g env hq).1 with h | h
    · exact ⟨[], by rw [h], by simp, by simp [hq]⟩
    · exact ⟨[Event.sleep 100], by rw [h], by simp, by simp [hq]⟩

/-- Repeating a tick whose reset fails replays the same three calls. -/
theorem repeatTick_fail_trace (env : TickEnv) (hr : FAILED env.deviceReset = true) (n : Nat) :
    ∀ g : Game,
      (getDeviceState g.graphics env.testCooperativeLevel).1 = D3DERR_DEVICENOTRESET →
      (repeatTick env n g).trace = g.trace ++
        (List.replicate n
          [Event.getDeviceState D3DERR_DEVICENOTRESET, Event.releaseAll,
           Event.reset (initD3DPresentaionParameters g.graphics).d3dpp env.deviceReset]).flatten := by
  induction n with
  | zero => intro g _; simp [repeatTick]
  | succ n ih =>
    intro g hq
    obtain ⟨ht, _, hd, hpp⟩ := handle_notreset_fail g env hq hr
    obtain ⟨_, hc⟩ := device_of_notreset _ _ hq
    have hq1 : (getDeviceState (handleLostGraphicsDevice g env).graphics
        env.testCooperativeLevel).1 = D3DERR_DEVICENOTRESET := by
      simp [getDeviceState, hd, hc]
    have h := ih (handleLostGraphicsDevice g env) hq1
    unfold repeatTick at h ⊢
    rw [Function.iterate_succ_apply, h, ht, hpp]
    simp [List.replicate_succ]

/-- Ticks whose status is never "lost, resettable" issue queries and sleeps only. -/
theorem handleTicks_other (envs : List TickEnv) :
    ∀ g : Game,
      (∀ env ∈ envs,
        (getDeviceState g.graphics env.testCooperativeLevel).1 ≠ D3DERR_DEVICENOTRESET) →
      ∃ new, (handleTicks g envs).trace = g.trace ++ new
        ∧ (∀ e ∈ new, e.isRecovery = false)
        ∧ new.countP Event.isGetDeviceState = envs.length := by
  induction envs with
  | nil => intro g _; exact ⟨[], by simp [handleTicks], by simp, by simp⟩
  | cons env rest ih =>
    intro g h
    have hq := h env (List.mem_cons_self _ _)
    obtain ⟨ht, _, hd⟩ := handle_other g env hq
    have hrest : ∀ e ∈ rest, (getDeviceState (handleLostGraphicsDevice g env).graphics
        e.testCooperativeLevel).1 ≠ D3DERR_DEVICENOTRESET := by
      intro e he
      rw [getDeviceState_status g.graphics _ _ hd]
      exact h e (List.mem_cons_of_mem _ he)
    obtain ⟨new, hn, hrec, hcnt⟩ := ih (handleLostGraphicsDevice g env) hrest
    have hfold : handleTicks g (env :: rest) = handleTicks (handleLostGraphicsDevice g env) rest := by
      simp [handleTicks]
    rcases ht with ht | ht
    · refine ⟨Event.getDeviceState (getDeviceState g.graphics env.testCooperativeLevel).1 :: new,
        by rw [hfold, hn, ht]; simp, ?_, ?_⟩
      · intro e he
        rcases List.mem_cons.1 he with rfl | he
        · rfl
        · exact hrec e he
      · simp [List.countP_cons, Event.isGetDeviceState, hcnt]
    · refine ⟨Event.getDeviceState (getDeviceState g.graphics env.testCooperativeLevel).1 ::
        Event.sleep 100 :: new, by rw [hfold, hn, ht]; simp, ?_, ?_⟩
      · intro e he
        rcases List.mem_cons.1 he with rfl | he
        · rfl
        · rcases List.mem_cons.1 he with rfl | he
          · rfl
          · exact hrec e he
      · simp [List.countP_cons, Event.isGetDeviceState, hcnt]

/-! ## Claims on the device-loss handler -/

/-- C1: whatever the state before the call (healthy, lost, or after a reset that failed),
when the device-state query reports "lost, resettable" and the reset succeeds, the
handler issues the query, then one `releaseAll`, one graphics reset and one `resetAll`,
in that order and nothing else; a following call whose query reports OK issues the query
only. The states observed at the two queries are LostNotReset, Healthy, and the device
is healthy after the recovery. When the call before was itself a call of the handler
whose query found the device healthy, the three calls issue exactly the three queries
and the three recovery actions, and the states observed are Healthy, LostNotReset,
Healthy. -/
theorem lost_resettable_recovers_once (g : Game) (env next : TickEnv)
    (hq : (getDeviceState g.graphics env.testCooperativeLevel).1 = D3DERR_DEVICENOTRESET)
    (hr : FAILED env.deviceReset = false)
    (hn : (getDeviceState (handleLostGraphicsDevice g env).graphics
        next.testCooperativeLevel).1 = D3D_OK) :
    newEvents g (handleLostGraphicsDevice g env) =
        [Event.getDeviceState D3DERR_DEVICENOTRESET, Event.releaseAll,
         Event.reset (initD3DPresentaionParameters g.graphics).d3dpp env.deviceReset,
         Event.resetAll]
    ∧ newEvents (handleLostGraphicsDevice g env)
        (handleLostGraphicsDevice (handleLostGraphicsDevice g env) next) =
        [Event.getDeviceState D3D_OK]
    ∧ observedStates (newEvents g
          (handleLostGraphicsDevice (handleLostGraphicsDevice g env) next)) =
        [DeviceHealth.LostNotReset, DeviceHealth.Healthy]
    ∧ deviceHealth (handleLostGraphicsDevice g env).hr = DeviceHealth.Healthy
    ∧ deviceHealth (handleLostGraphicsDevice (handleLostGraphicsDevice g env) next).hr =
        DeviceHealth.Healthy
    ∧ (∀ (g0 : Game) (prev : TickEnv),
        handleLostGraphicsDevice g0 prev = g →
        deviceHealth (getDeviceState g0.graphics prev.testCooperativeLevel).1 =
          DeviceHealth.Healthy →
        newEvents g0 (handleLostGraphicsDevice (handleLostGraphicsDevice g env) next) =
          [Event.getDeviceState (getDeviceState g0.graphics prev.testCooperativeLevel).1,
           Event.getDeviceState D3DERR_DEVICENOTRESET, Event.releaseAll,
           Event.reset (initD3DPresentaionParameters g.graphics).d3dpp env.deviceReset,
           Event.resetAll, Event.getDeviceState D3D_OK]
        ∧ observedStates
            (newEvents g0 (handleLostGraphicsDevice (handleLostGraphicsDevice g env) next)) =
          [DeviceHealth.Healthy, DeviceHealth.LostNotReset, DeviceHealth.Healthy]) := by
  obtain ⟨ht, hhr, _⟩ := handle_notreset_ok g env hq hr
  have hne : (getDeviceState (handleLostGraphicsDevice g env).graphics
      next.testCooperativeLevel).1 ≠ D3DERR_DEVICENOTRESET := by
    rw [hn]; decide
  obtain ⟨_, hhr2, _⟩ := handle_other (handleLostGraphicsDevice g env) next hne
  have hF : FAILED (getDeviceState (handleLostGraphicsDevice g env).graphics
      next.testCooperativeLevel).1 = false := by rw [hn]; decide
  have ht2 := handle_succeeded (handleLostGraphicsDevice g env) next hF
  rw [hn] at ht2
  have h1 : deviceHealth D3DERR_DEVICENOTRESET = DeviceHealth.LostNotReset := by decide
  have h2 : deviceHealth D3D_OK = DeviceHealth.Healthy := by decide
  refine ⟨newEvents_of_trace _ _ _ ht, newEvents_of_trace _ _ _ ht2, ?_, ?_, ?_, ?_⟩
  · rw [newEvents_of_trace g _ _ (by rw [ht2, ht, List.append_assoc])]
    simp [observedStates, h1, h2]
  · rw [hhr]; simp [deviceHealth, hr]
  · rw [hhr2, hn]; decide
  · intro g0 prev hg h0
    have hF0 : FAILED (getDeviceState g0.graphics prev.testCooperativeLevel).1 = false := by
      by_contra hc
      have hc2 : FAILED (getDeviceState g0.graphics prev.testCooperativeLevel).1 = true := by
        simpa using hc
      simp only [deviceHealth, hc2, if_true] at h0
      split_ifs at h0
    have ht0 := handle_succeeded g0 prev hF0
    rw [hg] at ht0
    have hall : newEvents g0 (handleLostGraphicsDevice (handleLostGraphicsDevice g env) next) =
        [Event.getDeviceState (getDeviceState g0.graphics prev.testCooperativeLevel).1,
         Event.getDeviceState D3DERR_DEVICENOTRESET, Event.releaseAll,
         Event.reset (initD3DPresentaionParameters g.graphics).d3dpp env.deviceReset,
         Event.resetAll, Event.getDeviceState D3D_OK] := by
      apply newEvents_of_trace
      rw [ht2, ht, ht0]
      simp
    refine ⟨hall, ?_⟩
    rw [hall]
    simp [observedStates, h0, h1, h2]

/-- Witness of C1: on the sample game after a tick whose reset failed, a resettable tick
issues the query and the three recovery actions; and a healthy tick, a resettable tick
and a healthy tick on the sample game are observed as Healthy, LostNotReset, Healthy. -/
theorem lost_resettable_recovers_once_witness :
    newEvents (handleLostGraphicsDevice sampleGame resetFailsEnv)
        (handleLostGraphicsDevice (handleLostGraphicsDevice sampleGame resetFailsEnv)
          resettableEnv) =
        [Event.getDeviceState D3DERR_DEVICENOTRESET, Event.releaseAll,
         Event.reset (initD3DPresentaionParameters sampleGame.graphics).d3dpp 0,
         Event.resetAll]
    ∧ observedStates (newEvents sampleGame
          (handleLostGraphicsDevice
            (handleLostGraphicsDevice (handleLostGraphicsDevice sampleGame sampleEnv)
              resettableEnv) sampleEnv)) =
        [DeviceHealth.Healthy, DeviceHealth.LostNotReset, DeviceHealth.Healthy] :=
  have h := lost_resettable_recovers_once
    (handleLostGraphicsDevice sampleGame resetFailsEnv) resettableEnv sampleEnv
    (by decide) (by decide) (by decide)
  have k := lost_resettable_recovers_once
    (handleLostGraphicsDevice sampleGame sampleEnv) resettableEnv sampleEnv
    (by decide) (by decide) (by decide)
  ⟨h.1.trans (by decide), (k.2.2.2.2.2 sampleGame sampleEnv rfl (by decide)).2⟩

/-- C4: when the device-state query reports "lost, resettable" and the reset fails, the
handler issues the query, one `releaseAll` and one reset, and no `resetAll`; repeating
the same failing tick any number of times replays these calls and never issues
`resetAll`. -/
theorem reset_failure_no_recreate (g : Game) (env : TickEnv) (n : Nat)
    (hq : (getDeviceState g.graphics env.testCooperativeLevel).1 = D3DERR_DEVICENOTRESET)
    (hr : FAILED env.deviceReset = true) :
    newEvents g (handleLostGraphicsDevice g env) =
        [Event.getDeviceState D3DERR_DEVICENOTRESET, Event.releaseAll,
         Event.reset (initD3DPresentaionParameters g.graphics).d3dpp env.deviceReset]
    ∧ newEvents g (repeatTick env n g) =
        (List.replicate n
          [Event.getDeviceState D3DERR_DEVICENOTRESET, Event.releaseAll,
           Event.reset (initD3DPresentaionParameters g.graphics).d3dpp env.deviceReset]).flatten
    ∧ Event.resetAll ∉ newEvents g (repeatTick env n g)
    ∧ deviceHealth (handleLostGraphicsDevice g env).hr ≠ DeviceHealth.Healthy := by
  obtain ⟨ht, hhr, _, _⟩ := handle_notreset_fail g env hq hr
  have hrep := newEvents_of_trace _ _ _ (repeatTick_fail_trace env hr n g hq)
  refine ⟨newEvents_of_trace _ _ _ ht, hrep, ?_, ?_⟩
  · rw [hrep]
    intro hmem
    obtain ⟨l, hl, hin⟩ := List.mem_flatten.1 hmem
    rw [(List.mem_replicate.1 hl).2] at hin
    simp at hin
  · rw [hhr]; simp [deviceHealth, hr]
    split_ifs <;> simp

/-- Witness of C4 on the sample game: the failing tick, twice. -/
theorem reset_failure_no_recreate_witness :
    newEvents sampleGame (repeatTick resetFailsEnv 2 sampleGame) =
      (List.replicate 2
        [Event.getDeviceState D3DERR_DEVICENOTRESET, Event.releaseAll,
         Event.reset (initD3DPresentaionParameters sampleGame.graphics).d3dpp
           resetFailsEnv.deviceReset]).flatten :=
  (reset_failure_no_recreate sampleGame resetFailsEnv 2 (by decide) (by decide)).2.1

/-- C5: over any number of consecutive ticks whose device-state query reports a status
other than "lost, resettable" (OK, "lost", any other failure, or the failure returned
when there is no device), the handler issues no `releaseAll`, no reset and no
`resetAll`; it issues one query per tick. -/
theorem no_recovery_unless_resettable (g : Game) (envs : List TickEnv)
    (h : ∀ env ∈ envs,
      (getDeviceState g.graphics env.testCooperativeLevel).1 ≠ D3DERR_DEVICENOTRESET) :
    (∀ e ∈ newEvents g (handleTicks g envs), e.isRecovery = false)
    ∧ (newEvents g (handleTicks g envs)).countP Event.isGetDeviceState = envs.length
    ∧ Event.releaseAll ∉ newEvents g (handleTicks g envs)
    ∧ Event.resetAll ∉ newEvents g (handleTicks g envs)
    ∧ (newEvents g (handleTicks g envs)).countP Event.isReset = 0 := by
  obtain ⟨new, hn, hrec, hcnt⟩ := handleTicks_other envs g h
  rw [newEvents_of_trace _ _ _ hn]
  refine ⟨hrec, hcnt, ?_, ?_, ?_⟩
  · intro hm; simpa [Event.isRecovery] using hrec _ hm
  · intro hm; simpa [Event.isRecovery] using hrec _ hm
  · rw [List.countP_eq_zero]
    intro e he
    have := hrec e he
    cases e <;> simp_all [Event.isRecovery, Event.isReset]

/-- Witness of C5 on the sample game: a healthy tick, two lost ticks, a failed tick. -/
theorem no_recovery_unless_resettable_witness :
    (newEvents sampleGame (handleTicks sampleGame
        [sampleEnv, lostEnv, lostEnv, { sampleEnv with testCooperativeLevel := E_FAIL }])).countP
        Event.isGetDeviceState = 4
    ∧ (newEvents sampleGame (handleTicks sampleGame
        [sampleEnv, lostEnv, lostEnv, { sampleEnv with testCooperativeLevel := E_FAIL }])).countP
        Event.isReset = 0 :=
  have h := no_recovery_unless_resettable sampleGame
    [sampleEnv, lostEnv, lostEnv, { sampleEnv with testCooperativeLevel := E_FAIL }]
    (by decide)
  ⟨h.2.1, h.2.2.2.2⟩

/-! ## Lemmas on binary32 rounding -/

theorem roundHalfEven_sub_le (t : ℚ) : |(roundHalfEven t : ℚ) - t| ≤ 1 / 2 := by
  have h1 := Int.floor_le t
  have h2 := Int.lt_floor_add_one t
  unfold roundHalfEven
  split_ifs with a b c
  · rw [abs_le]; constructor <;> linarith
  · rw [abs_le]; push_cast; constructor <;> linarith
  · rw [abs_le]; constructor <;> linarith
  · rw [abs_le]; push_cast; constructor <;> linarith

theorem roundHalfEven_nonneg (t : ℚ) (h : 0 ≤ t) : 0 ≤ roundHalfEven t := by
  have h1 : 0 ≤ Int.floor t := Int.floor_nonneg.2 h
  unfold roundHalfEven
  split_ifs <;> omega

/-- The nearest integer, given by a witness at distance below one half. -/
theorem roundHalfEven_eq (t : ℚ) (n : Int) (h : |t - n| < 1 / 2) : roundHalfEven t = n := by
  rw [abs_lt] at h
  have h1 := Int.floor_le t
  have h2 := Int.lt_floor_add_one t
  have hf : Int.floor t = n ∨ Int.floor t = n - 1 := by
    have a1 : Int.floor t < n + 1 := by
      have : (Int.floor t : ℚ) < (n : ℚ) + 1 := by linarith
      exact_mod_cast this
    have a2 : n - 2 < Int.floor t := by
      have : (n : ℚ) - 2 < (Int.floor t : ℚ) := by linarith
      exact_mod_cast this
    omega
  unfold roundHalfEven
  rcases hf with hf | hf
  · have : t - (Int.floor t : ℚ) < 1 / 2 := by rw [hf]; linarith
    rw [if_pos this, hf]
  · have e1 : (Int.floor t : ℚ) = n - 1 := by rw [hf]; push_cast; ring
    have n1 : ¬ (t - (Int.floor t : ℚ) < 1 / 2) := by rw [e1]; linarith
    have n2 : 1 / 2 < t - (Int.floor t : ℚ) := by rw [e1]; linarith
    rw [if_neg n1, if_pos n2, hf]; ring

/-- The exponent used by the rounding, from the binade of `x`. -/
theorem F32.exponent_eq (x : ℚ) (e : Int) (hx : 0 < x) (he : -126 ≤ e)
    (hlo : 2 ^ e ≤ x ∨ e = -126) (hhi : x < 2 ^ (e + 1)) :
    max (Int.log 2 |x|) (-126) = e := by
  rw [abs_of_pos hx]
  have h2 : ((2 : ℕ) : ℚ) = 2 := by norm_num
  have hlt : Int.log 2 x < e + 1 := by
    rw [← Int.lt_zpow_iff_log_lt (by norm_num) hx, h2]; exact hhi
  rcases hlo with hlo | hlo
  · have hle : e ≤ Int.log 2 x := by
      rw [← Int.zpow_le_iff_le_log (by norm_num) hx, h2]; exact hlo
    omega
  · omega

theorem F32.exponent_le (x : ℚ) (k : Int) (hx : 0 < x) (hk : -126 ≤ k)
    (hhi : x < 2 ^ (k + 1)) :
    max (Int.log 2 |x|) (-126) ≤ k := by
  rw [abs_of_pos hx]
  have h2 : ((2 : ℕ) : ℚ) = 2 := by norm_num
  have hlt : Int.log 2 x < k + 1 := by
    rw [← Int.lt_zpow_iff_log_lt (by norm_num) hx, h2]; exact hhi
  omega

/-- Rounding of a positive `x`, from its exponent `e` and the integer `n` nearest to
`x / 2 ^ (e - 23)`. -/
theorem F32.round_eq_of_pos (x : ℚ) (e n : Int) (hx : 0 < x) (he : -126 ≤ e)
    (hlo : 2 ^ e ≤ x ∨ e = -126) (hhi : x < 2 ^ (e + 1))
    (hn : |x / 2 ^ (e - 23) - n| < 1 / 2) (hfin : (n : ℚ) * 2 ^ (e - 23) < 2 ^ 128) :
    F32.round x = F32.fin (n * 2 ^ (e - 23)) := by
  have hexp := F32.exponent_eq x e hx he hlo hhi
  have hne : x ≠ 0 := ne_of_gt hx
  unfold F32.round
  rw [if_neg hne, hexp, abs_of_pos hx, roundHalfEven_eq _ n hn, if_neg (not_le.mpr hfin),
    if_pos hx]

/-- Rounding of a non-negative `x` below `2 ^ (k + 1)` is finite, non-negative and exceeds
`x` by at most half a unit in the last place of that binade. -/
theorem F32.round_of_nonneg (x : ℚ) (k : Int) (hx : 0 ≤ x) (hk : -126 ≤ k)
    (hlt : x < 2 ^ (k + 1)) (hfin : x + 2 ^ (k - 24) < 2 ^ 128) :
    ∃ y, F32.round x = F32.fin y ∧ 0 ≤ y ∧ y ≤ x + 2 ^ (k - 24) := by
  by_cases h0 : x = 0
  · subst h0
    refine ⟨0, by unfold F32.round; exact if_pos rfl, le_refl _, ?_⟩
    rw [zero_add]; exact le_of_lt (zpow_pos (by norm_num) _)
  · have hpos : 0 < x := lt_of_le_of_ne hx (Ne.symm h0)
    have hexp := F32.exponent_le x k hpos hk hlt
    unfold F32.round
    rw [if_neg h0, abs_of_pos hpos] at *
    generalize max (Int.log 2 x) (-126) = E at hexp ⊢
    have hq : (0 : ℚ) < 2 ^ (E - 23) := zpow_pos (by norm_num) _
    have hr := roundHalfEven_sub_le (x / 2 ^ (E - 23))
    have hn : (0 : ℚ) ≤ (roundHalfEven (x / 2 ^ (E - 23)) : ℚ) := by
      exact_mod_cast roundHalfEven_nonneg (x / 2 ^ (E - 23)) (div_nonneg hx (le_of_lt hq))
    have hy : (roundHalfEven (x / 2 ^ (E - 23)) : ℚ) * 2 ^ (E - 23) ≤ x + 2 ^ (k - 24) := by
      rw [abs_le] at hr
      have h1 : (roundHalfEven (x / 2 ^ (E - 23)) : ℚ) ≤ x / 2 ^ (E - 23) + 1 / 2 := by linarith
      have h2 := mul_le_mul_of_nonneg_right h1 (le_of_lt hq)
      have h5 : (2 : ℚ) ^ (E - 23) = 2 ^ (E - 24) * 2 := by
        rw [← zpow_add_one₀ (by norm_num : (2 : ℚ) ≠ 0)]; congr 1; ring
      have h3 : (x / 2 ^ (E - 23) + 1 / 2) * 2 ^ (E - 23) = x + 2 ^ (E - 24) := by
        rw [add_mul, div_mul_cancel₀ _ (ne_of_gt hq), h5]; ring
      have h4 : (2 : ℚ) ^ (E - 24) ≤ 2 ^ (k - 24) :=
        zpow_le_zpow_right₀ (by norm_num) (by omega)
      linarith
    refine ⟨_, ?_, mul_nonneg hn (le_of_lt hq), hy⟩
    rw [if_neg (not_le.mpr (lt_of_le_of_lt hy hfin)), if_pos hpos]

/-- A value that is `>=` another is not `<` it. -/
theorem F32.lt_eq_false_of_le (a b : F32) (h : F32.le a b = true) : F32.lt b a = false := by
  cases a <;> cases b <;> simp_all [F32.le, F32.lt]

/-! Values of the constants and of the conversions used on the sample inputs. -/

/-- Constant `MIN_FRAME_TIME` is `0.005f`. -/
theorem MIN_FRAME_TIME_eq : MIN_FRAME_TIME = F32.fin (5368709 / 2 ^ 30) := by
  have h : F32.round (1 / 200) = F32.fin (5368709 / 2 ^ 30) := by
    rw [F32.round_eq_of_pos (1 / 200) (-8) 10737418 (by norm_num) (by norm_num)
      (Or.inl (by norm_num)) (by norm_num) (by norm_num [abs_lt]) (by norm_num)]
    norm_num
  simp only [MIN_FRAME_TIME, FRAME_RATE, F32.div]
  rw [if_neg (by norm_num), h]

/-- Constant `MAX_FRAME_TIME` is `0.1f`. -/
theorem MAX_FRAME_TIME_eq : MAX_FRAME_TIME = F32.fin (13421773 / 2 ^ 27) := by
  have h : F32.round (1 / 10) = F32.fin (13421773 / 2 ^ 27) := by
    rw [F32.round_eq_of_pos (1 / 10) (-4) 13421773 (by norm_num) (by norm_num)
      (Or.inl (by norm_num)) (by norm_num) (by norm_num [abs_lt]) (by norm_num)]
    norm_num
  simp only [MAX_FRAME_TIME, MIN_FRAME_RATE, F32.div]
  rw [if_neg (by norm_num), h]

/-- Literal `0.99f`. -/
theorem round_99_100 : F32.round (99 / 100) = F32.fin (4152361 / 2 ^ 22) := by
  rw [F32.round_eq_of_pos (99 / 100) (-1) 16609444 (by norm_num) (by norm_num)
    (Or.inl (by norm_num)) (by norm_num) (by norm_num [abs_lt]) (by norm_num)]
  norm_num

/-- Literal `0.01f`. -/
theorem round_1_100 : F32.round (1 / 100) = F32.fin (5368709 / 2 ^ 29) := by
  rw [F32.round_eq_of_pos (1 / 100) (-7) 10737418 (by norm_num) (by norm_num)
    (Or.inl (by norm_num)) (by norm_num) (by norm_num [abs_lt]) (by norm_num)]
  norm_num

theorem ofInt_1 : F32.ofInt 1 = F32.fin 1 := by
  unfold F32.ofInt
  rw [F32.round_eq_of_pos _ 0 8388608 (by norm_num) (by norm_num)
    (Or.inl (by norm_num)) (by norm_num) (by norm_num [abs_lt]) (by norm_num)]
  norm_num

theorem ofInt_20 : F32.ofInt 20 = F32.fin 20 := by
  unfold F32.ofInt
  rw [F32.round_eq_of_pos _ 4 10485760 (by norm_num) (by norm_num)
    (Or.inl (by norm_num)) (by norm_num) (by norm_num [abs_lt]) (by norm_num)]
  norm_num

theorem ofInt_300 : F32.ofInt 300 = F32.fin 300 := by
  unfold F32.ofInt
  rw [F32.round_eq_of_pos _ 8 9830400 (by norm_num) (by norm_num)
    (Or.inl (by norm_num)) (by norm_num) (by norm_num [abs_lt]) (by norm_num)]
  norm_num

theorem ofInt_1000 : F32.ofInt 1000 = F32.fin 1000 := by
  unfold F32.ofInt
  rw [F32.round_eq_of_pos _ 9 16384000 (by norm_num) (by norm_num)
    (Or.inl (by norm_num)) (by norm_num) (by norm_num [abs_lt]) (by norm_num)]
  norm_num

/-- Float `0.001f`. -/
theorem round_1_1000 : F32.round (1 / 1000) = F32.fin (8589935 / 2 ^ 33) := by
  rw [F32.round_eq_of_pos (1 / 1000) (-10) 8589935 (by norm_num) (by norm_num)
    (Or.inl (by norm_num)) (by norm_num) (by norm_num [abs_lt]) (by norm_num)]
  norm_num

/-- Float `0.02f`. -/
theorem round_2_100 : F32.round (2 / 100) = F32.fin (5368709 / 2 ^ 28) := by
  rw [F32.round_eq_of_pos (2 / 100) (-6) 10737418 (by norm_num) (by norm_num)
    (Or.inl (by norm_num)) (by norm_num) (by norm_num [abs_lt]) (by norm_num)]
  norm_num

/-- Float `0.3f`. -/
theorem round_3_10 : F32.round (3 / 10) = F32.fin (5033165 / 2 ^ 24) := by
  rw [F32.round_eq_of_pos (3 / 10) (-2) 10066330 (by norm_num) (by norm_num)
    (Or.inl (by norm_num)) (by norm_num) (by norm_num [abs_lt]) (by norm_num)]
  norm_num

/-- Elapsed time of a game whose counter runs at 1000 ticks per second, `d` ticks after
its start. -/
theorem elapsed_at_1000 (g : Game) (start d : Int) (hs : g.timeStart = start)
    (hq : g.timerFreq = 1000) :
    elapsed g (start + d) = F32.div (F32.ofInt d) (F32.fin 1000) := by
  have hd : start + d - start = d := by ring
  rw [elapsed, hs, hq, hd, ofInt_1000]

theorem elapsed_1ms (g : Game) (start : Int) (hs : g.timeStart = start)
    (hq : g.timerFreq = 1000) : elapsed g (start + 1) = F32.round (1 / 1000) := by
  rw [elapsed_at_1000 g start 1 hs hq, ofInt_1]
  simp only [F32.div]
  rw [if_neg (by norm_num)]

theorem elapsed_20ms (g : Game) (start : Int) (hs : g.timeStart = start)
    (hq : g.timerFreq = 1000) : elapsed g (start + 20) = F32.round (2 / 100) := by
  rw [elapsed_at_1000 g start 20 hs hq, ofInt_20]
  simp only [F32.div]
  rw [if_neg (by norm_num)]
  norm_num

theorem elapsed_300ms (g : Game) (start : Int) (hs : g.timeStart = start)
    (hq : g.timerFreq = 1000) : elapsed g (start + 300) = F32.round (3 / 10) := by
  rw [elapsed_at_1000 g start 300 hs hq, ofInt_300]
  simp only [F32.div]
  rw [if_neg (by norm_num)]
  norm_num

/-! ## Claims on the frame clock -/

/-- Result of `timeToUpdate` when the elapsed time is below `MIN_FRAME_TIME`. -/
theorem timeToUpdate_not_yet (g : Game) (now : Int)
    (h : F32.lt (elapsed g now) MIN_FRAME_TIME = true) :
    timeToUpdate g now =
      (false,
        { g with
          timeEnd := now
          frameTime := elapsed g now
          sleepTime :=
            toDWORD (F32.mul (F32.sub MIN_FRAME_TIME (elapsed g now)) (F32.ofInt 1000))
          trace := g.trace ++ [Event.queryPerformanceCounter, Event.timeBeginPeriod 1,
            Event.sleep
              (toDWORD (F32.mul (F32.sub MIN_FRAME_TIME (elapsed g now)) (F32.ofInt 1000))),
            Event.timeEndPeriod 1] }) := by
  unfold elapsed at h ⊢
  simp [timeToUpdate, h, Game.emit]

/-- Result of `timeToUpdate` when the elapsed time is not below `MIN_FRAME_TIME`. -/
theorem timeToUpdate_proceed (g : Game) (now : Int)
    (h : F32.lt (elapsed g now) MIN_FRAME_TIME = false) :
    timeToUpdate g now =
      (true,
        { g with
          timeEnd := now
          timeStart := now
          frameTime := F32.min (elapsed g now) MAX_FRAME_TIME
          fps :=
            if F32.lt (F32.fin 0) (elapsed g now) then
              F32.add (F32.mul g.fps (F32.round (99 / 100)))
                (F32.div (F32.round (1 / 100)) (elapsed g now))
            else g.fps
          trace := g.trace ++ [Event.queryPerformanceCounter] }) := by
  unfold elapsed at h ⊢
  by_cases h0 : F32.lt (F32.fin 0)
      (F32.div (F32.ofInt (now - g.timeStart)) (F32.ofInt g.timerFreq)) = true <;>
    by_cases hmax : F32.lt MAX_FRAME_TIME
      (F32.div (F32.ofInt (now - g.timeStart)) (F32.ofInt g.timerFreq)) = true <;>
    simp [timeToUpdate, h, h0, hmax, F32.min]

/-- Verdict of `timeToUpdate` in terms of the elapsed time. -/
theorem timeToUpdate_true_iff (g : Game) (now : Int) :
    (timeToUpdate g now).1 = true ↔ F32.lt (elapsed g now) MIN_FRAME_TIME = false := by
  by_cases h : F32.lt (elapsed g now) MIN_FRAME_TIME = true
  · simp [timeToUpdate_not_yet g now h, h]
  · have h2 : F32.lt (elapsed g now) MIN_FRAME_TIME = false := by simpa using h
    simp [timeToUpdate_proceed g now h2, h2]

/-- C2: when the elapsed time `e` that `timeToUpdate` computes, the `float` quotient of
`now - timeStart` and `timerFreq`, is below `MIN_FRAME_TIME`, the call returns false and
leaves `timeStart`, `fps` and `timerFreq` as they were, so that the next call measures
the elapsed time from the same start. -/
theorem not_yet_keeps_start (g : Game) (now : Int)
    (h : F32.lt (elapsed g now) MIN_FRAME_TIME = true) :
    (timeToUpdate g now).1 = false
    ∧ (timeToUpdate g now).2.timeStart = g.timeStart
    ∧ (timeToUpdate g now).2.fps = g.fps
    ∧ (timeToUpdate g now).2.timerFreq = g.timerFreq
    ∧ ∀ later : Int, elapsed (timeToUpdate g now).2 later = elapsed g later := by
  rw [timeToUpdate_not_yet g now h]
  exact ⟨rfl, rfl, rfl, rfl, fun _ => rfl⟩

/-- Witness of C2: one counter tick (1 ms) after the start of the sample game. -/
theorem not_yet_keeps_start_witness :
    (timeToUpdate sampleGame 1).1 = false
    ∧ (timeToUpdate sampleGame 1).2.timeStart = sampleGame.timeStart :=
  have he : F32.lt (elapsed sampleGame 1) MIN_FRAME_TIME = true := by
    rw [show (1 : Int) = 0 + 1 from rfl, elapsed_1ms sampleGame 0 rfl rfl, round_1_1000,
      MIN_FRAME_TIME_eq]
    simp only [F32.lt, decide_eq_true_eq]
    norm_num
  have h := not_yet_keeps_start sampleGame 1 he
  ⟨h.1, h.2.1⟩

/-- Constant `MIN_FRAME_TIME` is the `float` nearest to 1/200. -/
theorem MIN_FRAME_TIME_round : MIN_FRAME_TIME = F32.round (1 / 200) := by
  simp only [MIN_FRAME_TIME, FRAME_RATE, F32.div]
  rw [if_neg (by norm_num)]

/-- Constant `MAX_FRAME_TIME` is the `float` nearest to 1/10. -/
theorem MAX_FRAME_TIME_round : MAX_FRAME_TIME = F32.round (1 / 10) := by
  simp only [MAX_FRAME_TIME, MIN_FRAME_RATE, F32.div]
  rw [if_neg (by norm_num)]

/-- C3: when the elapsed time `e` that `timeToUpdate` computes is at least
`MIN_FRAME_TIME`, the call returns true, sets `timeStart` to the counter value just read
and leaves `frameTime = min e MAX_FRAME_TIME`, which is `MAX_FRAME_TIME` whenever
`e > MAX_FRAME_TIME` and never exceeds it. With `FRAME_RATE = 200` and
`MIN_FRAME_RATE = 10` the bounds are the floats nearest to 5 ms and 100 ms, and the
elapsed times 0.001, 0.02, 0.3 give not yet, proceed with 0.02, proceed with 0.1. -/
theorem proceed_clamps_frame_time (g : Game) (now : Int)
    (h : F32.le MIN_FRAME_TIME (elapsed g now) = true) :
    (timeToUpdate g now).1 = true
    ∧ (timeToUpdate g now).2.timeStart = now
    ∧ (timeToUpdate g now).2.frameTime = F32.min (elapsed g now) MAX_FRAME_TIME
    ∧ (F32.lt MAX_FRAME_TIME (elapsed g now) = true →
        (timeToUpdate g now).2.frameTime = MAX_FRAME_TIME)
    ∧ F32.lt MAX_FRAME_TIME (timeToUpdate g now).2.frameTime = false
    ∧ MIN_FRAME_TIME = F32.round (5 / 1000) ∧ MAX_FRAME_TIME = F32.round (1 / 10)
    ∧ ∀ start : Int,
        tickResults { g with timeStart := start, timerFreq := 1000 }
          [start + 1, start + 20, start + 320] =
          [none, some (F32.round (2 / 100)), some (F32.round (1 / 10))] := by
  have hlt := F32.lt_eq_false_of_le _ _ h
  rw [timeToUpdate_proceed g now hlt]
  refine ⟨rfl, rfl, rfl, fun hmax => by simp [F32.min, hmax], ?_, ?_, MAX_FRAME_TIME_round, ?_⟩
  · show F32.lt MAX_FRAME_TIME (F32.min (elapsed g now) MAX_FRAME_TIME) = false
    by_cases hmax : F32.lt MAX_FRAME_TIME (elapsed g now) = true
    · rw [show F32.min (elapsed g now) MAX_FRAME_TIME = MAX_FRAME_TIME by simp [F32.min, hmax],
        MAX_FRAME_TIME_eq]
      simp [F32.lt]
    · have hmax2 : F32.lt MAX_FRAME_TIME (elapsed g now) = false := by simpa using hmax
      rw [show F32.min (elapsed g now) MAX_FRAME_TIME = elapsed g now by simp [F32.min, hmax2]]
      exact hmax2
  · rw [MIN_FRAME_TIME_round]; norm_num
  · intro start
    have h1 : ∀ g1 : Game, g1.timeStart = start → g1.timerFreq = 1000 →
        F32.lt (elapsed g1 (start + 1)) MIN_FRAME_TIME = true := by
      intro g1 hs hq
      rw [elapsed_1ms g1 start hs hq, round_1_1000, MIN_FRAME_TIME_eq]
      simp only [F32.lt, decide_eq_true_eq]
      norm_num
    have h2 : ∀ g1 : Game, g1.timeStart = start → g1.timerFreq = 1000 →
        F32.lt (elapsed g1 (start + 20)) MIN_FRAME_TIME = false := by
      intro g1 hs hq
      rw [elapsed_20ms g1 start hs hq, round_2_100, MIN_FRAME_TIME_eq]
      simp only [F32.lt, decide_eq_false_iff_not]
      norm_num
    have h3 : ∀ g1 : Game, g1.timeStart = start + 20 → g1.timerFreq = 1000 →
        F32.lt (elapsed g1 (start + 320)) MIN_FRAME_TIME = false := by
      intro g1 hs hq
      rw [show start + 320 = start + 20 + 300 by ring, elapsed_300ms g1 (start + 20) hs hq,
        round_3_10, MIN_FRAME_TIME_eq]
      simp only [F32.lt, decide_eq_false_iff_not]
      norm_num
    have m2 : F32.min (F32.round (2 / 100)) MAX_FRAME_TIME = F32.round (2 / 100) := by
      rw [round_2_100, MAX_FRAME_TIME_eq]
      have : F32.lt (F32.fin (13421773 / 2 ^ 27)) (F32.fin (5368709 / 2 ^ 28)) = false := by
        simp only [F32.lt, decide_eq_false_iff_not]
        norm_num
      simp only [F32.min, this, Bool.false_eq_true, if_false]
    have m3 : F32.min (F32.round (3 / 10)) MAX_FRAME_TIME = F32.round (1 / 10) := by
      rw [← MAX_FRAME_TIME_round, round_3_10, MAX_FRAME_TIME_eq]
      have : F32.lt (F32.fin (13421773 / 2 ^ 27)) (F32.fin (5033165 / 2 ^ 24)) = true := by
        simp only [F32.lt, decide_eq_true_eq]
        norm_num
      simp only [F32.min, this, if_true]
    simp only [tickResults]
    rw [timeToUpdate_not_yet _ _ (h1 _ rfl rfl)]
    simp only [Bool.false_eq_true, if_false]
    rw [timeToUpdate_proceed _ _ (h2 _ rfl rfl)]
    simp only [if_true]
    rw [timeToUpdate_proceed _ _ (h3 _ rfl rfl)]
    simp only [if_true]
    rw [elapsed_20ms _ start rfl rfl, show start + 320 = start + 20 + 300 by ring,
      elapsed_300ms _ (start + 20) rfl rfl, m2, m3]

/-- Witness of C3: the sample game 300 ms after its start. -/
theorem proceed_clamps_frame_time_witness :
    (timeToUpdate sampleGame 300).1 = true
    ∧ (timeToUpdate sampleGame 300).2.frameTime = MAX_FRAME_TIME :=
  have he : elapsed sampleGame 300 = F32.fin (5033165 / 2 ^ 24) := by
    rw [show (300 : Int) = 0 + 300 from rfl, elapsed_300ms sampleGame 0 rfl rfl, round_3_10]
  have hmin : F32.le MIN_FRAME_TIME (elapsed sampleGame 300) = true := by
    rw [he, MIN_FRAME_TIME_eq]
    simp only [F32.le, decide_eq_true_eq]
    norm_num
  have hmax : F32.lt MAX_FRAME_TIME (elapsed sampleGame 300) = true := by
    rw [he, MAX_FRAME_TIME_eq]
    simp only [F32.lt, decide_eq_true_eq]
    norm_num
  have h := proceed_clamps_frame_time sampleGame 300 hmin
  ⟨h.1, h.2.2.2.1 hmax⟩

/-! ## The threshold in binary32

The elapsed time of `timeToUpdate` is a `float` quotient of two converted integers, so
within one unit in the last place of `MIN_FRAME_TIME` it can fall on the other side of
the threshold than the exact quotient does. -/

/-- A tie is rounded to the even neighbour. -/
theorem roundHalfEven_tie (t : ℚ) (m : Int) (ht : t = m + 1 / 2) (hm : m % 2 = 0) :
    roundHalfEven t = m := by
  have hf : Int.floor t = m := by
    rw [Int.floor_eq_iff, ht]
    constructor <;> linarith
  unfold roundHalfEven
  rw [hf, if_neg (by rw [ht]; norm_num), if_neg (by rw [ht]; norm_num), if_pos hm]

/-- With a counter of 3000000000 Hz, 14999999 counts after the start the exact quotient
is below 1/200 and below `MIN_FRAME_TIME`, the `float` quotient is `MIN_FRAME_TIME`
itself, and `timeToUpdate` returns true. -/
theorem threshold_rounds_up :
    (14999999 : ℚ) / 3000000000 < 5368709 / 2 ^ 30
    ∧ elapsed { sampleGame with timerFreq := 3000000000 } 14999999 = MIN_FRAME_TIME
    ∧ (timeToUpdate { sampleGame with timerFreq := 3000000000 } 14999999).1 = true := by
  have he : elapsed { sampleGame with timerFreq := 3000000000 } 14999999 = MIN_FRAME_TIME := by
    have h1 : F32.ofInt (14999999 - 0) = F32.fin 14999999 := by
      unfold F32.ofInt
      rw [F32.round_eq_of_pos _ 23 14999999 (by norm_num) (by norm_num)
        (Or.inl (by norm_num)) (by norm_num) (by norm_num [abs_lt]) (by norm_num)]
      norm_num
    have h2 : F32.ofInt 3000000000 = F32.fin 3000000000 := by
      unfold F32.ofInt
      rw [F32.round_eq_of_pos _ 31 11718750 (by norm_num) (by norm_num)
        (Or.inl (by norm_num)) (by norm_num) (by norm_num [abs_lt]) (by norm_num)]
      norm_num
    show F32.div (F32.ofInt (14999999 - 0)) (F32.ofInt 3000000000) = MIN_FRAME_TIME
    rw [h1, h2, MIN_FRAME_TIME_eq]
    simp only [F32.div]
    rw [if_neg (by norm_num), F32.round_eq_of_pos _ (-8) 10737418 (by norm_num) (by norm_num)
      (Or.inl (by norm_num)) (by norm_num) (by norm_num [abs_lt]) (by norm_num)]
    norm_num
  refine ⟨by norm_num, he, ?_⟩
  rw [timeToUpdate_true_iff, he, MIN_FRAME_TIME_eq]
  simp [F32.lt]

/-- With a counter of 3364896172 Hz, 16824481 counts after the start the exact quotient
is at least 1/200, the `float` quotient is the `float` just below `MIN_FRAME_TIME`, and
`timeToUpdate` returns false. -/
theorem threshold_rounds_down :
    (1 : ℚ) / 200 ≤ 16824481 / 3364896172
    ∧ elapsed { sampleGame with timerFreq := 3364896172 } 16824481 =
        F32.fin (10737417 / 2 ^ 31)
    ∧ (timeToUpdate { sampleGame with timerFreq := 3364896172 } 16824481).1 = false := by
  have he : elapsed { sampleGame with timerFreq := 3364896172 } 16824481 =
      F32.fin (10737417 / 2 ^ 31) := by
    have h1 : F32.ofInt (16824481 - 0) = F32.fin 16824480 := by
      have hexp := F32.exponent_eq (16824481 : ℚ) 24 (by norm_num) (by norm_num)
        (Or.inl (by norm_num)) (by norm_num)
      have hr := roundHalfEven_tie ((16824481 : ℚ) / 2 ^ ((24 : Int) - 23)) 8412240
        (by norm_num) (by decide)
      rw [abs_of_pos (by norm_num : (0 : ℚ) < 16824481)] at hexp
      show F32.round (((16824481 - 0 : Int) : ℚ)) = F32.fin 16824480
      have hc : (((16824481 - 0 : Int) : ℚ)) = 16824481 := by norm_num
      rw [hc]
      unfold F32.round
      rw [if_neg (by norm_num), abs_of_pos (by norm_num : (0 : ℚ) < 16824481), hexp, hr,
        if_neg (by norm_num), if_pos (by norm_num)]
      norm_num
    have h2 : F32.ofInt 3364896172 = F32.fin 3364896256 := by
      unfold F32.ofInt
      rw [F32.round_eq_of_pos _ 31 13144126 (by norm_num) (by norm_num)
        (Or.inl (by norm_num)) (by norm_num) (by norm_num [abs_lt]) (by norm_num)]
      norm_num
    show F32.div (F32.ofInt (16824481 - 0)) (F32.ofInt 3364896172) = _
    rw [h1, h2]
    simp only [F32.div]
    rw [if_neg (by norm_num), F32.round_eq_of_pos _ (-8) 10737417 (by norm_num) (by norm_num)
      (Or.inl (by norm_num)) (by norm_num) (by norm_num [abs_lt]) (by norm_num)]
    norm_num
  refine ⟨by norm_num, he, ?_⟩
  have hlt : F32.lt (elapsed { sampleGame with timerFreq := 3364896172 } 16824481)
      MIN_FRAME_TIME = true := by
    rw [he, MIN_FRAME_TIME_eq]
    simp only [F32.lt, decide_eq_true_eq]
    norm_num
  rw [timeToUpdate_not_yet _ _ hlt]

/-! ## Lemmas on `renderGame` and `run` -/

/-- Calls of one `renderGame`: the scene, the device-state query with what the handler
does after it, the present. -/
theorem renderGame_trace (g : Game) (env : TickEnv) :
    ∃ tail, (renderGame g env).trace = g.trace ++
        (sceneEvents env ++
          Event.getDeviceState (getDeviceState g.graphics env.testCooperativeLevel).1 :: tail ++
          [Event.showBackbuffer env.present])
      ∧ (∀ e ∈ tail, e = Event.sleep 100 ∨ e.isRecovery = true)
      ∧ (Event.resetAll ∈ tail ↔
          ((getDeviceState g.graphics env.testCooperativeLevel).1 = D3DERR_DEVICENOTRESET
            ∧ FAILED env.deviceReset = false)) := by
  by_cases hb : SUCCEEDED env.beginScene = true
  · obtain ⟨tail, ht, h1, h2⟩ := handle_trace
      ((g.emit [Event.beginScene env.beginScene]).emit
        [Event.render, Event.endScene env.endScene]) env
    refine ⟨tail, ?_, h1, h2⟩
    simp only [renderGame, hb, if_true, showBackbuffer, sceneEvents]
    rw [ht]
    simp [Game.emit]
  · obtain ⟨tail, ht, h1, h2⟩ := handle_trace (g.emit [Event.beginScene env.beginScene]) env
    refine ⟨tail, ?_, h1, h2⟩
    have hb2 : SUCCEEDED env.beginScene = false := by simpa using hb
    simp only [renderGame, hb2, Bool.false_eq_true, if_false, showBackbuffer, sceneEvents]
    rw [ht]
    simp [Game.emit]

/-- The calls of the handler, exactly. -/
theorem handle_events (g : Game) (env : TickEnv) :
    (handleLostGraphicsDevice g env).trace = g.trace ++ handlerEvents g.graphics env := by
  by_cases hq : (getDeviceState g.graphics env.testCooperativeLevel).1 = D3DERR_DEVICENOTRESET
  · by_cases hr : FAILED env.deviceReset = true
    · rw [(handle_notreset_fail g env hq hr).1]
      simp [handlerEvents, hq, hr, DEVICENOTRESET_ne_DEVICELOST]
    · have hr2 : FAILED env.deviceReset = false := by simpa using hr
      rw [(handle_notreset_ok g env hq hr2).1]
      simp [handlerEvents, hq, hr2, DEVICENOTRESET_ne_DEVICELOST]
  · by_cases hL : (getDeviceState g.graphics env.testCooperativeLevel).1 = D3DERR_DEVICELOST
    · simp [handleLostGraphicsDevice, Game.emit, hL, FAILED_DEVICELOST, handlerEvents]
    · by_cases hF : FAILED (getDeviceState g.graphics env.testCooperativeLevel).1 = true
      · simp [handleLostGraphicsDevice, Game.emit, hF, hL, hq, handlerEvents]
      · simp [handleLostGraphicsDevice, Game.emit, hF, hL, hq, handlerEvents]

/-- The calls of one `renderGame`, exactly: the scene, the handler, the present. -/
theorem renderGame_events (g : Game) (env : TickEnv) :
    (renderGame g env).trace = g.trace ++
      (sceneEvents env ++ handlerEvents g.graphics env ++ [Event.showBackbuffer env.present]) := by
  by_cases hb : SUCCEEDED env.beginScene = true
  · have ht := handle_events
      ((g.emit [Event.beginScene env.beginScene]).emit
        [Event.render, Event.endScene env.endScene]) env
    simp only [renderGame, hb, if_true, showBackbuffer, sceneEvents]
    rw [ht]
    simp [Game.emit]
  · have ht := handle_events (g.emit [Event.beginScene env.beginScene]) env
    have hb2 : SUCCEEDED env.beginScene = false := by simpa using hb
    simp only [renderGame, hb2, Bool.false_eq_true, if_false, showBackbuffer, sceneEvents]
    rw [ht]
    simp [Game.emit]

/-- What follows the query inside the handler is counted by no predicate that rejects
the sleep and the recovery actions. -/
theorem countP_handler_tail (p : Event → Bool) (tail : List Event)
    (ht : ∀ e ∈ tail, e = Event.sleep 100 ∨ e.isRecovery = true)
    (hs : p (Event.sleep 100) = false) (hr : ∀ e, e.isRecovery = true → p e = false) :
    tail.countP p = 0 := by
  rw [List.countP_eq_zero]
  intro e he
  rcases ht e he with rfl | h
  · simp [hs]
  · simp [hr e h]

/-! Recovery actions are none of the other calls. -/

theorem isUpdate_of_isRecovery (e : Event) (h : e.isRecovery = true) : e.isUpdate = false := by
  cases e <;> first | rfl | exact absurd h (by simp [Event.isRecovery])

theorem isAi_of_isRecovery (e : Event) (h : e.isRecovery = true) : e.isAi = false := by
  cases e <;> first | rfl | exact absurd h (by simp [Event.isRecovery])

theorem isCollisions_of_isRecovery (e : Event) (h : e.isRecovery = true) : e.isCollisions = false := by
  cases e <;> first | rfl | exact absurd h (by simp [Event.isRecovery])

theorem isVibrate_of_isRecovery (e : Event) (h : e.isRecovery = true) : e.isVibrate = false := by
  cases e <;> first | rfl | exact absurd h (by simp [Event.isRecovery])

theorem isBeginScene_of_isRecovery (e : Event) (h : e.isRecovery = true) : e.isBeginScene = false := by
  cases e <;> first | rfl | exact absurd h (by simp [Event.isRecovery])

theorem isShowBackbuffer_of_isRecovery (e : Event) (h : e.isRecovery = true) : e.isShowBackbuffer = false := by
  cases e <;> first | rfl | exact absurd h (by simp [Event.isRecovery])

theorem isReadControllers_of_isRecovery (e : Event) (h : e.isRecovery = true) : e.isReadControllers = false := by
  cases e <;> first | rfl | exact absurd h (by simp [Event.isRecovery])

theorem isInputClear_of_isRecovery (e : Event) (h : e.isRecovery = true) : e.isInputClear = false := by
  cases e <;> first | rfl | exact absurd h (by simp [Event.isRecovery])

theorem isClearKeysPressed_of_isRecovery (e : Event) (h : e.isRecovery = true) : e.isClearKeysPressed = false := by
  cases e <;> first | rfl | exact absurd h (by simp [Event.isRecovery])

theorem isRender_of_isRecovery (e : Event) (h : e.isRecovery = true) : e.isRender = false := by
  cases e <;> first | rfl | exact absurd h (by simp [Event.isRecovery])

theorem isEndScene_of_isRecovery (e : Event) (h : e.isRecovery = true) : e.isEndScene = false := by
  cases e <;> first | rfl | exact absurd h (by simp [Event.isRecovery])

theorem isGetDeviceState_of_isRecovery (e : Event) (h : e.isRecovery = true) : e.isGetDeviceState = false := by
  cases e <;> first | rfl | exact absurd h (by simp [Event.isRecovery])

/-- A `run` that proceeds is the simulation calls, one `renderGame`, and the two input
calls. -/
theorem run_eq (g : Game) (env : TickEnv) (h : (timeToUpdate g env.now).1 = true) :
    run g env =
      (renderGame
        ((timeToUpdate g env.now).2.emit
          (simulationEvents (timeToUpdate g env.now).2.paused
            (timeToUpdate g env.now).2.frameTime)) env).emit
        [Event.readControllers, Event.inputClear InputClear.KEYS_PRESSED] := by
  unfold run simulationEvents
  simp only [h, Bool.true_eq_false, if_false]
  by_cases hp : (timeToUpdate g env.now).2.paused = false
  · simp only [hp, if_true]
  · have hp2 : (timeToUpdate g env.now).2.paused = true := by simpa using hp
    have : (timeToUpdate g env.now).2.emit [] = (timeToUpdate g env.now).2 := by
      simp [Game.emit]
    simp only [hp2, Bool.true_eq_false, if_false, this]

/-- Calls of one `run` that proceeds. -/
theorem run_trace (g : Game) (env : TickEnv) (h : (timeToUpdate g env.now).1 = true) :
    ∃ tail, (run g env).trace = g.trace ++
        (Event.queryPerformanceCounter ::
          simulationEvents g.paused (timeToUpdate g env.now).2.frameTime ++
          (sceneEvents env ++
            Event.getDeviceState (getDeviceState g.graphics env.testCooperativeLevel).1 :: tail ++
            [Event.showBackbuffer env.present]) ++
          [Event.readControllers, Event.inputClear InputClear.KEYS_PRESSED])
      ∧ (∀ e ∈ tail, e = Event.sleep 100 ∨ e.isRecovery = true)
      ∧ (Event.resetAll ∈ tail ↔
          ((getDeviceState g.graphics env.testCooperativeLevel).1 = D3DERR_DEVICENOTRESET
            ∧ FAILED env.deviceReset = false)) := by
  have he := (timeToUpdate_true_iff g env.now).1 h
  have ht := timeToUpdate_proceed g env.now he
  rw [run_eq g env h]
  obtain ⟨tail, hr, h1, h2⟩ := renderGame_trace
    ((timeToUpdate g env.now).2.emit
      (simulationEvents (timeToUpdate g env.now).2.paused
        (timeToUpdate g env.now).2.frameTime)) env
  refine ⟨tail, ?_, h1, ?_⟩
  · simp only [Game.emit] at hr ⊢
    rw [hr, ht]
    simp
  · rw [h2, ht]; rfl

/-! ## Claims on `run` and `renderGame` -/

/-- C6: on a tick on which `timeToUpdate` says proceed, a paused game invokes none of
`update`, `ai`, `collisions`, `input.vibrateControllers`; a game that is not paused
invokes each exactly once. In both cases `renderGame` runs exactly once (one
`beginScene`, one `showBackbuffer`) and `input.readControllers` and
`input.clear(KEYS_PRESSED)` are invoked exactly once each. -/
theorem paused_suppresses_simulation (g : Game) (env : TickEnv)
    (h : (timeToUpdate g env.now).1 = true) :
    (g.paused = true →
        (newEvents g (run g env)).countP Event.isUpdate = 0
        ∧ (newEvents g (run g env)).countP Event.isAi = 0
        ∧ (newEvents g (run g env)).countP Event.isCollisions = 0
        ∧ (newEvents g (run g env)).countP Event.isVibrate = 0)
    ∧ (g.paused = false →
        (newEvents g (run g env)).countP Event.isUpdate = 1
        ∧ (newEvents g (run g env)).countP Event.isAi = 1
        ∧ (newEvents g (run g env)).countP Event.isCollisions = 1
        ∧ (newEvents g (run g env)).countP Event.isVibrate = 1)
    ∧ run g env =
        (renderGame
          ((timeToUpdate g env.now).2.emit
            (simulationEvents g.paused (timeToUpdate g env.now).2.frameTime)) env).emit
          [Event.readControllers, Event.inputClear InputClear.KEYS_PRESSED]
    ∧ (newEvents g (run g env)).countP Event.isBeginScene = 1
    ∧ (newEvents g (run g env)).countP Event.isShowBackbuffer = 1
    ∧ (newEvents g (run g env)).countP Event.isReadControllers = 1
    ∧ (newEvents g (run g env)).countP Event.isInputClear = 1
    ∧ (newEvents g (run g env)).countP Event.isClearKeysPressed = 1 := by
  obtain ⟨tail, ht, h1, _⟩ := run_trace g env h
  have hpaused : (timeToUpdate g env.now).2.paused = g.paused := by
    rw [timeToUpdate_proceed g env.now ((timeToUpdate_true_iff g env.now).1 h)]
  have hrun := run_eq g env h
  rw [hpaused] at hrun
  rw [newEvents_of_trace _ _ _ ht]
  have c1 := countP_handler_tail Event.isUpdate tail h1 rfl isUpdate_of_isRecovery
  have c2 := countP_handler_tail Event.isAi tail h1 rfl isAi_of_isRecovery
  have c3 := countP_handler_tail Event.isCollisions tail h1 rfl isCollisions_of_isRecovery
  have c4 := countP_handler_tail Event.isVibrate tail h1 rfl isVibrate_of_isRecovery
  have c5 := countP_handler_tail Event.isBeginScene tail h1 rfl isBeginScene_of_isRecovery
  have c6 := countP_handler_tail Event.isShowBackbuffer tail h1 rfl isShowBackbuffer_of_isRecovery
  have c7 := countP_handler_tail Event.isReadControllers tail h1 rfl isReadControllers_of_isRecovery
  have c8 := countP_handler_tail Event.isInputClear tail h1 rfl isInputClear_of_isRecovery
  have c9 := countP_handler_tail Event.isClearKeysPressed tail h1 rfl isClearKeysPressed_of_isRecovery
  refine ⟨?_, ?_, hrun, ?_, ?_, ?_, ?_, ?_⟩
  · intro hp
    by_cases hb : SUCCEEDED env.beginScene = true <;>
      simp [simulationEvents, sceneEvents, hp, hb, List.countP_cons, Event.isUpdate,
        Event.isAi, Event.isCollisions, Event.isVibrate, c1, c2, c3, c4]
  · intro hp
    by_cases hb : SUCCEEDED env.beginScene = true <;>
      simp [simulationEvents, sceneEvents, hp, hb, List.countP_cons, Event.isUpdate,
        Event.isAi, Event.isCollisions, Event.isVibrate, c1, c2, c3, c4]
  · by_cases hp : g.paused = false <;> by_cases hb : SUCCEEDED env.beginScene = true <;>
      simp [simulationEvents, sceneEvents, hp, hb, List.countP_cons, Event.isBeginScene, c5]
  · by_cases hp : g.paused = false <;> by_cases hb : SUCCEEDED env.beginScene = true <;>
      simp [simulationEvents, sceneEvents, hp, hb, List.countP_cons, Event.isShowBackbuffer, c6]
  · by_cases hp : g.paused = false <;> by_cases hb : SUCCEEDED env.beginScene = true <;>
      simp [simulationEvents, sceneEvents, hp, hb, List.countP_cons, Event.isReadControllers, c7]
  · by_cases hp : g.paused = false <;> by_cases hb : SUCCEEDED env.beginScene = true <;>
      simp [simulationEvents, sceneEvents, hp, hb, List.countP_cons, Event.isInputClear, c8]
  · by_cases hp : g.paused = false <;> by_cases hb : SUCCEEDED env.beginScene = true <;>
      simp [simulationEvents, sceneEvents, hp, hb, List.countP_cons, Event.isClearKeysPressed, c9]

/-- Witness of C6: the sample game, paused, on a tick 20 ms after its start. -/
theorem paused_suppresses_simulation_witness :
    (newEvents { sampleGame with paused := true }
        (run { sampleGame with paused := true } sampleEnv)).countP Event.isUpdate = 0
    ∧ (newEvents { sampleGame with paused := true }
        (run { sampleGame with paused := true } sampleEnv)).countP Event.isShowBackbuffer = 1 :=
  have hp : (timeToUpdate { sampleGame with paused := true } sampleEnv.now).1 = true :=
    (timeToUpdate_true_iff _ _).2
      (by
        rw [show sampleEnv.now = 0 + 20 from rfl, elapsed_20ms _ 0 rfl rfl, round_2_100,
          MIN_FRAME_TIME_eq]
        simp only [F32.lt, decide_eq_false_iff_not]
        norm_num)
  have h := paused_suppresses_simulation { sampleGame with paused := true } sampleEnv hp
  ⟨(h.1 rfl).1, h.2.2.2.2.1⟩

/-- C7, as stated, fails: with a device that reports "lost" the sample game still draws
(host `render`) and still presents the back buffer in that tick. -/
theorem lost_device_still_rendered :
    deviceHealth (getDeviceState sampleGame.graphics lostEnv.testCooperativeLevel).1 =
        DeviceHealth.Lost
    ∧ newEvents sampleGame (renderGame sampleGame lostEnv) =
        [Event.beginScene 0, Event.render, Event.endScene 0,
         Event.getDeviceState D3DERR_DEVICELOST, Event.sleep 100, Event.showBackbuffer 0]
    ∧ Event.render ∈ newEvents sampleGame (renderGame sampleGame lostEnv)
    ∧ Event.showBackbuffer 0 ∈ newEvents sampleGame (renderGame sampleGame lostEnv) := by
  decide

/-- C7, amended: in a tick whose device-state query reports the device unusable (lost,
lost-resettable whose reset fails, or any other failure) no `resetAll` is issued, but
rendering is not skipped. The calls of `renderGame` are exactly: `beginScene`; when it
succeeded the host `render` and `endScene`; only then the device-state query, followed
by the sleep (lost) or by `releaseAll` and the reset (lost-resettable); and last the
present of the back buffer. So the draw happens before the query, exactly when
`beginScene` succeeded, and the back buffer is presented exactly once. -/
theorem unusable_device_not_recreated (g : Game) (env : TickEnv)
    (hu : FAILED (getDeviceState g.graphics env.testCooperativeLevel).1 = true)
    (hf : (getDeviceState g.graphics env.testCooperativeLevel).1 = D3DERR_DEVICENOTRESET →
        FAILED env.deviceReset = true) :
    deviceHealth (getDeviceState g.graphics env.testCooperativeLevel).1 ≠ DeviceHealth.Healthy
    ∧ Event.resetAll ∉ newEvents g (renderGame g env)
    ∧ (newEvents g (renderGame g env)).countP Event.isRender =
        (if SUCCEEDED env.beginScene then 1 else 0)
    ∧ (newEvents g (renderGame g env)).countP Event.isShowBackbuffer = 1
    ∧ (newEvents g (renderGame g env)).getLast? = some (Event.showBackbuffer env.present)
    ∧ newEvents g (renderGame g env) =
        (if SUCCEEDED env.beginScene then
          [Event.beginScene env.beginScene, Event.render, Event.endScene env.endScene]
         else [Event.beginScene env.beginScene]) ++
        (Event.getDeviceState (getDeviceState g.graphics env.testCooperativeLevel).1 ::
          (if (getDeviceState g.graphics env.testCooperativeLevel).1 = D3DERR_DEVICELOST then
            [Event.sleep 100]
           else if (getDeviceState g.graphics env.testCooperativeLevel).1 =
              D3DERR_DEVICENOTRESET then
            [Event.releaseAll,
             Event.reset (initD3DPresentaionParameters g.graphics).d3dpp env.deviceReset]
           else [])) ++
        [Event.showBackbuffer env.present] := by
  obtain ⟨tail, ht, h1, h2⟩ := renderGame_trace g env
  have hexact : newEvents g (renderGame g env) =
        (if SUCCEEDED env.beginScene then
          [Event.beginScene env.beginScene, Event.render, Event.endScene env.endScene]
         else [Event.beginScene env.beginScene]) ++
        (Event.getDeviceState (getDeviceState g.graphics env.testCooperativeLevel).1 ::
          (if (getDeviceState g.graphics env.testCooperativeLevel).1 = D3DERR_DEVICELOST then
            [Event.sleep 100]
           else if (getDeviceState g.graphics env.testCooperativeLevel).1 =
              D3DERR_DEVICENOTRESET then
            [Event.releaseAll,
             Event.reset (initD3DPresentaionParameters g.graphics).d3dpp env.deviceReset]
           else [])) ++
        [Event.showBackbuffer env.present] := by
    rw [newEvents_of_trace _ _ _ (renderGame_events g env)]
    have hs : sceneEvents env =
        (if SUCCEEDED env.beginScene then
          [Event.beginScene env.beginScene, Event.render, Event.endScene env.endScene]
         else [Event.beginScene env.beginScene]) := by
      by_cases hb : SUCCEEDED env.beginScene = true <;> simp [sceneEvents, hb]
    rw [hs]
    congr 2
    unfold handlerEvents
    by_cases hq :
        (getDeviceState g.graphics env.testCooperativeLevel).1 = D3DERR_DEVICENOTRESET
    · simp [hq, hf hq, DEVICENOTRESET_ne_DEVICELOST]
    · simp [hq]
  have hno : Event.resetAll ∉ tail := by
    intro hm
    obtain ⟨hq, hr⟩ := h2.1 hm
    rw [hf hq] at hr
    exact absurd hr (by decide)
  have c1 := countP_handler_tail Event.isRender tail h1 rfl isRender_of_isRecovery
  have c2 := countP_handler_tail Event.isShowBackbuffer tail h1 rfl isShowBackbuffer_of_isRecovery
  refine ⟨?_, ?_, ?_, ?_, ?_, hexact⟩
  · simp only [deviceHealth, hu, if_true]
    split_ifs <;> simp
  · rw [newEvents_of_trace _ _ _ ht]
    by_cases hb : SUCCEEDED env.beginScene = true <;> simp [sceneEvents, hb, hno]
  · rw [newEvents_of_trace _ _ _ ht]
    by_cases hb : SUCCEEDED env.beginScene = true <;>
      simp [sceneEvents, hb, List.countP_cons, Event.isRender, c1]
  · rw [newEvents_of_trace _ _ _ ht]
    by_cases hb : SUCCEEDED env.beginScene = true <;>
      simp [sceneEvents, hb, List.countP_cons, Event.isShowBackbuffer, c2]
  · rw [newEvents_of_trace _ _ _ ht, List.getLast?_append]
    simp

/-- Witness of C7 amended: the sample game on a tick whose reset fails draws, then
queries, releases and resets, then presents. -/
theorem unusable_device_not_recreated_witness :
    (newEvents sampleGame (renderGame sampleGame resetFailsEnv)).countP
        Event.isShowBackbuffer = 1
    ∧ newEvents sampleGame (renderGame sampleGame resetFailsEnv) =
        [Event.beginScene 0, Event.render, Event.endScene 0,
         Event.getDeviceState D3DERR_DEVICENOTRESET, Event.releaseAll,
         Event.reset (initD3DPresentaionParameters sampleGame.graphics).d3dpp E_FAIL,
         Event.showBackbuffer 0] :=
  have h := unusable_device_not_recreated sampleGame resetFailsEnv (by decide) (by decide)
  ⟨h.2.2.2.1, h.2.2.2.2.2.trans (by decide)⟩

/-- C8, as stated, fails: when `beginScene` fails the sample game makes neither the draw
nor the `endScene` call; the sequence is begin, device-state query, present. -/
theorem failed_begin_skips_draw :
    SUCCEEDED beginFailsEnv.beginScene = false
    ∧ newEvents sampleGame (renderGame sampleGame beginFailsEnv) =
        [Event.beginScene E_FAIL, Event.getDeviceState D3D_OK, Event.showBackbuffer 0]
    ∧ Event.render ∉ newEvents sampleGame (renderGame sampleGame beginFailsEnv) := by
  decide

/-- C8, amended: every `renderGame` calls `beginScene`; when that succeeds the host
`render` and `endScene` follow, whatever `endScene` returns, and when it fails both are
skipped. Then comes the device-state query with what the handler does on it (a sleep
or recovery actions), then the present. The query and the present are made exactly
once each, the query before the present. -/
theorem renderGame_call_sequence (g : Game) (env : TickEnv) :
    ∃ tail,
      newEvents g (renderGame g env) =
        sceneEvents env ++
          Event.getDeviceState (getDeviceState g.graphics env.testCooperativeLevel).1 :: tail ++
          [Event.showBackbuffer env.present]
      ∧ sceneEvents env =
          (if SUCCEEDED env.beginScene then
            [Event.beginScene env.beginScene, Event.render, Event.endScene env.endScene]
           else [Event.beginScene env.beginScene])
      ∧ (∀ e ∈ tail, e = Event.sleep 100 ∨ e.isRecovery = true)
      ∧ (newEvents g (renderGame g env)).countP Event.isGetDeviceState = 1
      ∧ (newEvents g (renderGame g env)).countP Event.isShowBackbuffer = 1
      ∧ (newEvents g (renderGame g env)).countP Event.isBeginScene = 1 := by
  obtain ⟨tail, ht, h1, _⟩ := renderGame_trace g env
  have c1 := countP_handler_tail Event.isGetDeviceState tail h1 rfl isGetDeviceState_of_isRecovery
  have c2 := countP_handler_tail Event.isShowBackbuffer tail h1 rfl isShowBackbuffer_of_isRecovery
  have c3 := countP_handler_tail Event.isBeginScene tail h1 rfl isBeginScene_of_isRecovery
  refine ⟨tail, newEvents_of_trace _ _ _ ht, ?_, h1, ?_, ?_, ?_⟩
  · by_cases hb : SUCCEEDED env.beginScene = true <;> simp [sceneEvents, hb]
  · rw [newEvents_of_trace _ _ _ ht]
    by_cases hb : SUCCEEDED env.beginScene = true <;>
      simp [sceneEvents, hb, List.countP_cons, Event.isGetDeviceState, c1]
  · rw [newEvents_of_trace _ _ _ ht]
    by_cases hb : SUCCEEDED env.beginScene = true <;>
      simp [sceneEvents, hb, List.countP_cons, Event.isShowBackbuffer, c2]
  · rw [newEvents_of_trace _ _ _ ht]
    by_cases hb : SUCCEEDED env.beginScene = true <;>
      simp [sceneEvents, hb, List.countP_cons, Event.isBeginScene, c3]

/-! ## Claims on the message loop -/

/-- Calls of one `run`, proceeding or not: the counter is read once, no message is
dispatched. -/
theorem run_counts (g : Game) (env : TickEnv) :
    ∃ new, (run g env).trace = g.trace ++ new
      ∧ new.countP Event.isQueryCounter = 1
      ∧ new.countP Event.isDispatch = 0 := by
  by_cases h : (timeToUpdate g env.now).1 = true
  · obtain ⟨tail, ht, h1, _⟩ := run_trace g env h
    have c1 := countP_handler_tail Event.isQueryCounter tail h1 rfl
      (by intro e he; cases e <;> first | rfl | exact absurd he (by simp [Event.isRecovery]))
    have c2 := countP_handler_tail Event.isDispatch tail h1 rfl
      (by intro e he; cases e <;> first | rfl | exact absurd he (by simp [Event.isRecovery]))
    refine ⟨_, ht, ?_, ?_⟩
    · by_cases hp : g.paused = false <;> by_cases hb : SUCCEEDED env.beginScene = true <;>
        simp [simulationEvents, sceneEvents, hp, hb, List.countP_cons, Event.isQueryCounter, c1]
    · by_cases hp : g.paused = false <;> by_cases hb : SUCCEEDED env.beginScene = true <;>
        simp [simulationEvents, sceneEvents, hp, hb, List.countP_cons, Event.isDispatch, c2]
  · have he : F32.lt (elapsed g env.now) MIN_FRAME_TIME = true := by
      by_contra hc
      exact h ((timeToUpdate_true_iff g env.now).2 (by simpa using hc))
    have ht := timeToUpdate_not_yet g env.now he
    refine ⟨[Event.queryPerformanceCounter, Event.timeBeginPeriod 1,
      Event.sleep (toDWORD (F32.mul (F32.sub MIN_FRAME_TIME (elapsed g env.now))
        (F32.ofInt 1000))),
      Event.timeEndPeriod 1], ?_, ?_, ?_⟩
    · simp only [run, ht, if_true]
    · simp [List.countP_cons, Event.isQueryCounter]
    · simp [List.countP_cons, Event.isDispatch]

/-- Calls of the iterations of the loop: one dispatch per pending message, one reading
of the counter (one `run`) per iteration that finds the queue empty. -/
theorem iterations_counts (inputs : List LoopInput) :
    ∀ (g : Game) (msg : MSG),
      ∃ new, (iterations g msg inputs).2.trace = g.trace ++ new
        ∧ new.countP Event.isDispatch = inputs.countP LoopInput.isMessage
        ∧ new.countP Event.isQueryCounter = inputs.countP (fun i => !i.isMessage) := by
  induction inputs with
  | nil => intro g msg; exact ⟨[], by simp [iterations], by simp, by simp⟩
  | cons i rest ih =>
    intro g msg
    have hstep : iterations g msg (i :: rest) =
        iterations (gameLoopBody g msg i).2.2 (gameLoopBody g msg i).2.1 rest := by
      simp [iterations]
    obtain ⟨new, hn, hd, hc⟩ := ih (gameLoopBody g msg i).2.2 (gameLoopBody g msg i).2.1
    cases i with
    | message m =>
      refine ⟨Event.translateMessage m :: Event.dispatchMessage m :: new, ?_, ?_, ?_⟩
      · rw [hstep, hn]; simp [gameLoopBody, Game.emit]
      · simp [List.countP_cons, Event.isDispatch, LoopInput.isMessage, hd]
      · simp [List.countP_cons, Event.isQueryCounter, LoopInput.isMessage, hc]
    | idle env =>
      obtain ⟨ev, hr, hq, hdis⟩ := run_counts g env
      refine ⟨ev ++ new, ?_, ?_, ?_⟩
      · rw [hstep, hn]; simp [gameLoopBody, hr]
      · simp [List.countP_cons, List.countP_append, LoopInput.isMessage, hd, hdis]
      · simp [List.countP_cons, List.countP_append, LoopInput.isMessage, hc, hq]
        omega

/-- The loop runs the body on every input before the first shutdown message. -/
theorem gameLoopWhile_until_quit (pre : List LoopInput) (rest : List LoopInput) :
    ∀ (g : Game) (msg : MSG), (∀ i ∈ pre, i.isQuit = false) →
      gameLoopWhile true msg g (pre ++ rest) =
        gameLoopWhile true (iterations g msg pre).1 (iterations g msg pre).2 rest := by
  induction pre with
  | nil => intro g msg _; simp [iterations]
  | cons i pre ih =>
    intro g msg h
    have hi := h i (List.mem_cons_self _ _)
    have hrun : (gameLoopBody g msg i).1 = true := by
      cases i with
      | message m =>
        have hm : m.message ≠ WM_QUIT := by simpa [LoopInput.isQuit] using hi
        simp [gameLoopBody, hm]
      | idle env => rfl
    have hstep : iterations g msg (i :: pre) =
        iterations (gameLoopBody g msg i).2.2 (gameLoopBody g msg i).2.1 pre := by
      simp [iterations]
    rw [List.cons_append, gameLoopWhile, hstep]
    simp only [hrun]
    exact ih _ _ (fun j hj => h j (List.mem_cons_of_mem _ hj))

/-- C9: an iteration that finds a pending message translates and dispatches exactly that
message and does not call `run`; an iteration that finds the queue empty calls `run`
exactly once and dispatches nothing. When the message removed is `WM_QUIT` it is still
dispatched, the loop ends there (the later inputs are not consumed) and `gameLoop`
returns the `wParam` of that message; before a `WM_QUIT` the loop does not return. -/
theorem gameLoop_dispatch_or_run (g : Game) (msg0 q : MSG) (pre suf : List LoopInput)
    (hpre : ∀ i ∈ pre, i.isQuit = false) (hq : q.message = WM_QUIT) :
    (∀ (s : Game) (msg m : MSG),
        newEvents s (gameLoopBody s msg (LoopInput.message m)).2.2 =
          [Event.translateMessage m, Event.dispatchMessage m]
        ∧ (gameLoopBody s msg (LoopInput.message m)).2.1 = m)
    ∧ (∀ (s : Game) (msg : MSG) (env : TickEnv),
        (gameLoopBody s msg (LoopInput.idle env)).2.2 = run s env
        ∧ (gameLoopBody s msg (LoopInput.idle env)).2.1 = msg
        ∧ (newEvents s (run s env)).countP Event.isQueryCounter = 1
        ∧ (newEvents s (run s env)).countP Event.isDispatch = 0)
    ∧ gameLoop g msg0 (pre ++ LoopInput.message q :: suf) =
        some (q.wParam,
          (iterations g msg0 pre).2.emit [Event.translateMessage q, Event.dispatchMessage q],
          suf)
    ∧ gameLoop g msg0 pre = none
    ∧ (newEvents g ((iterations g msg0 pre).2.emit
          [Event.translateMessage q, Event.dispatchMessage q])).countP Event.isDispatch =
        pre.countP LoopInput.isMessage + 1
    ∧ (newEvents g ((iterations g msg0 pre).2.emit
          [Event.translateMessage q, Event.dispatchMessage q])).countP Event.isQueryCounter =
        pre.countP (fun i => !i.isMessage) := by
  refine ⟨?_, ?_, ?_, ?_, ?_, ?_⟩
  · intro s msg m
    exact ⟨newEvents_of_trace _ _ _ (by simp [gameLoopBody, Game.emit]), rfl⟩
  · intro s msg env
    obtain ⟨new, hn, h1, h2⟩ := run_counts s env
    rw [newEvents_of_trace _ _ _ hn]
    exact ⟨rfl, rfl, h1, h2⟩
  · unfold gameLoop
    rw [gameLoopWhile_until_quit pre _ g msg0 hpre, gameLoopWhile]
    simp [gameLoopBody, hq, gameLoopWhile]
  · unfold gameLoop
    have h := gameLoopWhile_until_quit pre [] g msg0 hpre
    rw [List.append_nil] at h
    rw [h, gameLoopWhile]
  · obtain ⟨new, hn, hd, _⟩ := iterations_counts pre g msg0
    rw [newEvents_of_trace g _ (new ++ [Event.translateMessage q, Event.dispatchMessage q])
      (by simp [Game.emit, hn])]
    simp [List.countP_append, List.countP_cons, Event.isDispatch, hd]
  · obtain ⟨new, hn, _, hc⟩ := iterations_counts pre g msg0
    rw [newEvents_of_trace g _ (new ++ [Event.translateMessage q, Event.dispatchMessage q])
      (by simp [Game.emit, hn])]
    simp [List.countP_append, List.countP_cons, Event.isQueryCounter, hc]

/-- Witness of C9: a key message, an idle iteration, then `WM_QUIT` with one more input
left in the queue. -/
theorem gameLoop_dispatch_or_run_witness :
    gameLoop sampleGame keyMessage
        ([LoopInput.message keyMessage, LoopInput.idle sampleEnv] ++
          LoopInput.message quitMessage :: [LoopInput.idle sampleEnv]) =
      some (3,
        (iterations sampleGame keyMessage
          [LoopInput.message keyMessage, LoopInput.idle sampleEnv]).2.emit
          [Event.translateMessage quitMessage, Event.dispatchMessage quitMessage],
        [LoopInput.idle sampleEnv]) :=
  (gameLoop_dispatch_or_run sampleGame keyMessage quitMessage
    [LoopInput.message keyMessage, LoopInput.idle sampleEnv] [LoopInput.idle sampleEnv]
    (by decide) rfl).2.2.1

/-! ## Claims on `GraphicsSystem::initialize` -/

/-- The mode loop answers false when no mode passes the test. -/
theorem isAdapterCompatibleLoop_none (modes : List D3DDISPLAYMODE) :
    ∀ (gs : GraphicsSystem) (i : Nat), (∀ m ∈ modes, modeMatches gs.d3dpp m = false) →
      (isAdapterCompatibleLoop gs i modes).1 = false := by
  induction modes with
  | nil => intro gs i _; rfl
  | cons m rest ih =>
    intro gs i h
    have hm := h m (List.mem_cons_self _ _)
    simp only [isAdapterCompatibleLoop, hm, Bool.false_eq_true, if_false]
    exact ih _ _ (fun x hx => h x (List.mem_cons_of_mem _ hx))

/-- The mode loop issues `EnumAdapterModes` calls only. -/
theorem isAdapterCompatibleLoop_events (modes : List D3DDISPLAYMODE) :
    ∀ (gs : GraphicsSystem) (i : Nat),
      (isAdapterCompatibleLoop gs i modes).2.2.countP Event.isCreateDevice = 0 := by
  induction modes with
  | nil => intro gs i; rfl
  | cons m rest ih =>
    intro gs i
    by_cases hm : modeMatches gs.d3dpp m = true
    · simp [isAdapterCompatibleLoop, hm, List.countP_cons, Event.isCreateDevice]
    · have hm2 : modeMatches gs.d3dpp m = false := by simpa using hm
      simp only [isAdapterCompatibleLoop, hm2, Bool.false_eq_true, if_false, List.countP_cons,
        Event.isCreateDevice, ih]

/-- The mode loop does not touch the configuration nor the device pointer. -/
theorem isAdapterCompatibleLoop_graphics (modes : List D3DDISPLAYMODE) :
    ∀ (gs : GraphicsSystem) (i : Nat),
      (isAdapterCompatibleLoop gs i modes).2.1.device3d = gs.device3d := by
  induction modes with
  | nil => intro gs i; rfl
  | cons m rest ih =>
    intro gs i
    by_cases hm : modeMatches gs.d3dpp m = true
    · simp [isAdapterCompatibleLoop, hm]
    · have hm2 : modeMatches gs.d3dpp m = false := by simpa using hm
      simp only [isAdapterCompatibleLoop, hm2, Bool.false_eq_true, if_false, ih]

/-- Compatibility check of a fullscreen system none of whose adapter modes passes the
test: the fatal error, after mode-check calls only. -/
theorem handleGraphicsCompatibility_fatal (gs : GraphicsSystem) (env : InitEnv)
    (hf : gs.fullscreen = true)
    (hno : ∀ m ∈ env.adapterModes gs.d3dpp.BackBufferFormat, modeMatches gs.d3dpp m = false) :
    (handleGraphicsCompatibility gs env).value = Except.error ⟨Severity.FATAL_ERROR,
        "The graphics device does not support the specified resolution and/or format."⟩
    ∧ (handleGraphicsCompatibility gs env).events.countP Event.isCreateDevice = 0
    ∧ (handleGraphicsCompatibility gs env).graphics.device3d = gs.device3d := by
  have h1 := isAdapterCompatibleLoop_none _ gs 0 hno
  have h2 := isAdapterCompatibleLoop_events (env.adapterModes gs.d3dpp.BackBufferFormat) gs 0
  have h3 := isAdapterCompatibleLoop_graphics (env.adapterModes gs.d3dpp.BackBufferFormat) gs 0
  simp [handleGraphicsCompatibility, isAdapterCompatible, hf, h1, h2, h3, List.countP_cons,
    Event.isCreateDevice]

/-- Compatibility check of a windowed system: no mode check, only the capabilities. -/
theorem handleGraphicsCompatibility_windowed (gs : GraphicsSystem) (env : InitEnv)
    (hf : gs.fullscreen = false) :
    handleGraphicsCompatibility gs env =
      { graphics := { gs with result := env.getDeviceCaps }
        events := [Event.getDeviceCaps]
        value := Except.ok
          (if (env.caps.DevCaps &&& D3DDEVCAPS_HWTRANSFORMANDLIGHT) = 0 ∨
              env.caps.VertexShaderVersion < D3DVS_VERSION 1 1 then
            D3DCREATE_SOFTWARE_VERTEXPROCESSING
          else D3DCREATE_HARDWARE_VERTEXPROCESSING) } := by
  simp [handleGraphicsCompatibility, hf]

/-- C10: a fullscreen `initialize` on an adapter none of whose modes has the requested
width and height with a refresh rate at least the requested one fails with a
`GameError` of severity `FATAL_ERROR` and never calls `CreateDevice`; a windowed
`initialize` makes no mode check, and its result does not depend on the adapter
modes: it succeeds as soon as Direct3D and the device can be created. -/
theorem fullscreen_without_mode_is_fatal (gs : GraphicsSystem) (hw : HWND) (w h : Int)
    (env : InitEnv)
    (hno : ∀ m ∈ env.adapterModes D3DFMT_X8R8G8B8,
      ¬ (m.Width = toUINT w ∧ m.Height = toUINT h ∧
          m.RefreshRate ≥ requestedRefreshRate
            { gs with hwnd := hw, width := w, height := h, fullscreen := true })) :
    (∃ e, ( GraphicsSystem.initialize gs hw w h true env).value = Except.error e
        ∧ e.errorCode = Severity.FATAL_ERROR)
    ∧ ( GraphicsSystem.initialize gs hw w h true env).events.countP Event.isCreateDevice = 0
    ∧ ( GraphicsSystem.initialize gs hw w h true env).graphics.device3d = gs.device3d
    ∧ ( GraphicsSystem.initialize gs hw w h false env).events.countP Event.isModeCheck = 0
    ∧ (∀ modes : UINT → List D3DDISPLAYMODE,
        ( GraphicsSystem.initialize gs hw w h false { env with adapterModes := modes }).value =
          ( GraphicsSystem.initialize gs hw w h false env).value
        ∧ ( GraphicsSystem.initialize gs hw w h false { env with adapterModes := modes }).events =
          ( GraphicsSystem.initialize gs hw w h false env).events)
    ∧ (env.direct3DCreate9 = true → FAILED env.createDevice = false →
        ( GraphicsSystem.initialize gs hw w h false env).value = Except.ok ()) := by
  have hwin : ∀ e : InitEnv,
      handleGraphicsCompatibility (initD3DPresentaionParameters
        { gs with hwnd := hw, width := w, height := h, fullscreen := false,
                  direct3d := e.direct3DCreate9 }) e = _ :=
    fun e => handleGraphicsCompatibility_windowed _ e rfl
  have hfull := handleGraphicsCompatibility_fatal (initD3DPresentaionParameters
      { gs with hwnd := hw, width := w, height := h, fullscreen := true,
                direct3d := env.direct3DCreate9 }) env rfl
    (by
      intro m hm
      have := hno m hm
      simp only [modeMatches, initD3DPresentaionParameters, requestedRefreshRate] at this ⊢
      by_contra hc
      simp only [Bool.not_eq_false, Bool.and_eq_true, decide_eq_true_eq] at hc
      exact this ⟨hc.1.2, hc.1.1, hc.2⟩)
  by_cases hd : env.direct3DCreate9 = false
  · refine ⟨⟨⟨Severity.FATAL_ERROR, "Error initializing Direct3D"⟩, ?_, rfl⟩, ?_, ?_, ?_, ?_, ?_⟩
    · simp only [ GraphicsSystem.initialize, hd, if_true]
    · simp [ GraphicsSystem.initialize, hd, List.countP_cons, Event.isCreateDevice]
    · simp [ GraphicsSystem.initialize, hd]
    · simp [ GraphicsSystem.initialize, hd, List.countP_cons, Event.isModeCheck]
    · intro modes
      simp [ GraphicsSystem.initialize, hd]
    · intro ht
      rw [hd] at ht
      exact absurd ht (by decide)
  · have hd1 : env.direct3DCreate9 = true := by simpa using hd
    have hwin1 := hwin env
    have hwin2 : ∀ modes : UINT → List D3DDISPLAYMODE, _ :=
      fun modes => hwin { env with adapterModes := modes }
    simp only [hd1] at hfull hwin1 hwin2
    refine ⟨⟨⟨Severity.FATAL_ERROR,
        "The graphics device does not support the specified resolution and/or format."⟩,
        ?_, rfl⟩, ?_, ?_, ?_, ?_, ?_⟩
    · simp only [ GraphicsSystem.initialize, hd1, Bool.true_eq_false, if_false]
      rw [hfull.1]
    · simp only [ GraphicsSystem.initialize, hd1, Bool.true_eq_false, if_false]
      rw [hfull.1]
      simp [List.countP_cons, Event.isCreateDevice, hfull.2.1]
    · simp only [ GraphicsSystem.initialize, hd1, Bool.true_eq_false, if_false]
      rw [hfull.1]
      exact hfull.2.2
    · simp only [ GraphicsSystem.initialize, hd1, Bool.true_eq_false, if_false]
      rw [hwin1]
      by_cases hc : FAILED env.createDevice = true <;>
        simp [hc, List.countP_cons, Event.isModeCheck]
    · intro modes
      simp only [ GraphicsSystem.initialize, hd1, Bool.true_eq_false, if_false]
      rw [hwin1, hwin2 modes]
      by_cases hc : FAILED env.createDevice = true <;> simp [hc]
    · intro _ hc
      simp only [ GraphicsSystem.initialize, hd1, Bool.true_eq_false, if_false]
      rw [hwin1]
      simp [hc]

/-- Witness of C10: 640 x 480 fullscreen on an adapter that only has 800 x 600. -/
theorem fullscreen_without_mode_is_fatal_witness :
    ( GraphicsSystem.initialize freshGraphics 7 640 480 true oneModeEnv).events.countP
        Event.isCreateDevice = 0
    ∧ ( GraphicsSystem.initialize freshGraphics 7 640 480 true oneModeEnv).graphics.device3d =
        freshGraphics.device3d :=
  have h := fullscreen_without_mode_is_fatal freshGraphics 7 640 480 oneModeEnv (by decide)
  ⟨h.2.1, h.2.2.1⟩

/-! ## Claims on the smoothed frame rate and on the reset configuration -/

/-- The smoothing step `fps * 0.99f + 0.01f / e` on a finite `fps >= 0` and an elapsed time
that is `> 0` and not below `MIN_FRAME_TIME` is finite and `>= 0`. -/
theorem fps_update_finite (q : ℚ) (e : F32) (h0 : 0 ≤ q) (hq : q < 2 ^ 128)
    (hmin : F32.lt e MIN_FRAME_TIME = false) (hpos : F32.lt (F32.fin 0) e = true) :
    ∃ q1 : ℚ, F32.add (F32.mul (F32.fin q) (F32.round (99 / 100)))
        (F32.div (F32.round (1 / 100)) e) = F32.fin q1 ∧ 0 ≤ q1 ∧ q1 < 2 ^ 128 := by
  rw [round_99_100, round_1_100]
  have hk : (2 : ℚ) ^ ((127 : Int) + 1) = 2 ^ 128 := by norm_num
  have hu : (2 : ℚ) ^ ((127 : Int) - 24) = 2 ^ 103 := by norm_num
  have hqc : q * (4152361 / 2 ^ 22) ≤ 2 ^ 128 * (4152361 / 2 ^ 22) :=
    mul_le_mul_of_nonneg_right (le_of_lt hq) (by norm_num)
  obtain ⟨a, ha, ha0, hab⟩ := F32.round_of_nonneg (q * (4152361 / 2 ^ 22)) 127
    (mul_nonneg h0 (by norm_num)) (by norm_num)
    (by rw [hk]; norm_num at hqc ⊢; linarith)
    (by rw [hu]; norm_num at hqc ⊢; linarith)
  rw [hu] at hab
  have hmul : F32.mul (F32.fin q) (F32.fin (4152361 / 2 ^ 22)) = F32.fin a := by
    simp only [F32.mul]; exact ha
  rw [hmul]
  have hsum : ∀ b : ℚ, 0 ≤ b → b ≤ 3 →
      ∃ q1 : ℚ, F32.add (F32.fin a) (F32.fin b) = F32.fin q1 ∧ 0 ≤ q1 ∧ q1 < 2 ^ 128 := by
    intro b hb0 hb3
    obtain ⟨c, hc, hc0, hcb⟩ := F32.round_of_nonneg (a + b) 127 (add_nonneg ha0 hb0)
      (by norm_num)
      (by rw [hk]; norm_num at hqc hab ⊢; linarith)
      (by rw [hu]; norm_num at hqc hab ⊢; linarith)
    rw [hu] at hcb
    refine ⟨c, by simp only [F32.add]; exact hc, hc0, ?_⟩
    norm_num at hqc hab hcb ⊢
    linarith
  cases e with
  | fin x =>
    have hx0 : 0 < x := by simpa [F32.lt] using hpos
    have hxm : (5368709 / 2 ^ 30 : ℚ) ≤ x := by
      rw [MIN_FRAME_TIME_eq] at hmin
      simpa [F32.lt] using hmin
    have hle : (5368709 / 2 ^ 29 : ℚ) / x ≤ 2 := by
      rw [div_le_iff₀ hx0]
      norm_num at hxm ⊢
      linarith
    obtain ⟨b, hb, hb0, hbb⟩ := F32.round_of_nonneg ((5368709 / 2 ^ 29 : ℚ) / x) 1
      (div_nonneg (by norm_num) (le_of_lt hx0)) (by norm_num)
      (by norm_num at hle ⊢; linarith)
      (by norm_num at hle ⊢; linarith)
    have hdiv : F32.div (F32.fin (5368709 / 2 ^ 29)) (F32.fin x) = F32.fin b := by
      simp only [F32.div]
      rw [if_neg (ne_of_gt hx0)]
      exact hb
    rw [hdiv]
    refine hsum b hb0 ?_
    norm_num at hle hbb ⊢
    linarith
  | pinf =>
    have hdiv : F32.div (F32.fin (5368709 / 2 ^ 29)) F32.pinf = F32.fin 0 := rfl
    rw [hdiv]
    exact hsum 0 (le_refl _) (by norm_num)
  | ninf => simp [F32.lt] at hpos
  | nan => simp [F32.lt] at hpos

/-- C11: from a previous `fps` that is finite and `>= 0`, the `fps` left by `timeToUpdate`
is again finite and `>= 0`, whatever the elapsed time `e` computed. When `e` has reached
`MIN_FRAME_TIME` it is `fps * 0.99f + 0.01f / e`, with `e > 0` at the division; when
`e` is below `MIN_FRAME_TIME`, and whenever `e > 0` does not hold, `fps` is unchanged:
the division is evaluated only with `e >= MIN_FRAME_TIME`. -/
theorem fps_stays_nonnegative (g : Game) (now : Int)
    (hfin : F32.isFinite g.fps = true) (hfps : F32.le (F32.fin 0) g.fps = true) :
    F32.isFinite (timeToUpdate g now).2.fps = true
    ∧ F32.le (F32.fin 0) (timeToUpdate g now).2.fps = true
    ∧ (F32.le MIN_FRAME_TIME (elapsed g now) = true →
        F32.lt (F32.fin 0) (elapsed g now) = true
        ∧ (timeToUpdate g now).2.fps =
            F32.add (F32.mul g.fps (F32.round (99 / 100)))
              (F32.div (F32.round (1 / 100)) (elapsed g now)))
    ∧ (F32.lt (elapsed g now) MIN_FRAME_TIME = true → (timeToUpdate g now).2.fps = g.fps)
    ∧ (F32.lt (F32.fin 0) (elapsed g now) = false → (timeToUpdate g now).2.fps = g.fps)
    ∧ ((timeToUpdate g now).2.fps ≠ g.fps → F32.le MIN_FRAME_TIME (elapsed g now) = true) := by
  have hposmin : ∀ e : F32, F32.le MIN_FRAME_TIME e = true → F32.lt (F32.fin 0) e = true := by
    intro e he
    rw [MIN_FRAME_TIME_eq] at he
    cases e with
    | fin x =>
      have hx : (5368709 / 2 ^ 30 : ℚ) ≤ x := by simpa [F32.le] using he
      have : (0 : ℚ) < x := lt_of_lt_of_le (by norm_num) hx
      simpa [F32.lt] using this
    | pinf => rfl
    | ninf => simp [F32.le] at he
    | nan => simp [F32.le] at he
  have hlemin : ∀ e : F32, F32.lt e MIN_FRAME_TIME = false → F32.lt (F32.fin 0) e = true →
      F32.le MIN_FRAME_TIME e = true := by
    intro e h1 h2
    rw [MIN_FRAME_TIME_eq] at h1 ⊢
    cases e with
    | fin x =>
      have hx : (5368709 / 2 ^ 30 : ℚ) ≤ x := by simpa [F32.lt] using h1
      simpa [F32.le] using hx
    | pinf => rfl
    | ninf => simp [F32.lt] at h2
    | nan => simp [F32.lt] at h2
  by_cases h : F32.lt (elapsed g now) MIN_FRAME_TIME = true
  · rw [timeToUpdate_not_yet g now h]
    refine ⟨hfin, hfps, ?_, fun _ => rfl, fun _ => rfl, fun hne => absurd rfl hne⟩
    intro hle
    rw [F32.lt_eq_false_of_le _ _ hle] at h
    exact absurd h (by decide)
  · have h2 : F32.lt (elapsed g now) MIN_FRAME_TIME = false := by simpa using h
    rw [timeToUpdate_proceed g now h2]
    by_cases hp : F32.lt (F32.fin 0) (elapsed g now) = true
    · have hfpsq : ∃ q : ℚ, g.fps = F32.fin q ∧ 0 ≤ q ∧ q < 2 ^ 128 := by
        cases hg : g.fps with
        | fin q =>
          rw [hg] at hfin hfps
          have hq0 : 0 ≤ q := by simpa [F32.le] using hfps
          have hq1 : |q| < 2 ^ 128 := by simpa [F32.isFinite] using hfin
          exact ⟨q, rfl, hq0, lt_of_le_of_lt (le_abs_self q) hq1⟩
        | pinf => rw [hg] at hfin; simp [F32.isFinite] at hfin
        | ninf => rw [hg] at hfin; simp [F32.isFinite] at hfin
        | nan => rw [hg] at hfin; simp [F32.isFinite] at hfin
      obtain ⟨q, hgq, hq0, hq1⟩ := hfpsq
      obtain ⟨q1, hq1e, hq10, hq11⟩ := fps_update_finite q (elapsed g now) hq0 hq1 h2 hp
      rw [← hgq] at hq1e
      refine ⟨?_, ?_, fun _ => ⟨hp, by simp only [hp, if_true]⟩, ?_, ?_,
        fun _ => hlemin _ h2 hp⟩
      · simp only [hp, if_true, hq1e, F32.isFinite, decide_eq_true_eq]
        rw [abs_of_nonneg hq10]; exact hq11
      · simp only [hp, if_true, hq1e, F32.le, decide_eq_true_eq]
        exact hq10
      · intro hlt; rw [hlt] at h2; exact absurd h2 (by decide)
      · intro hnp; rw [hnp] at hp; exact absurd hp (by decide)
    · have hp2 : F32.lt (F32.fin 0) (elapsed g now) = false := by simpa using hp
      refine ⟨?_, ?_, ?_, ?_, ?_, ?_⟩
      · simp only [hp2, Bool.false_eq_true, if_false]; exact hfin
      · simp only [hp2, Bool.false_eq_true, if_false]; exact hfps
      · intro hle
        rw [hposmin _ hle] at hp2
        exact absurd hp2 (by decide)
      · intro _; simp only [hp2, Bool.false_eq_true, if_false]
      · intro _; simp only [hp2, Bool.false_eq_true, if_false]
      · intro hne
        simp only [hp2, Bool.false_eq_true, if_false] at hne
        exact absurd rfl hne

/-- Witness of C11: the constructed game, whose `fps` held 30, 20 ms after its start: the
new `fps` is `30 * 0.99f + 0.01f / 0.02f` in `float` arithmetic, finite and `>= 0`. -/
theorem fps_stays_nonnegative_witness :
    F32.isFinite (timeToUpdate constructedGame 20).2.fps = true
    ∧ F32.le (F32.fin 0) (timeToUpdate constructedGame 20).2.fps = true
    ∧ (timeToUpdate constructedGame 20).2.fps =
        F32.add (F32.mul (F32.fin 30) (F32.round (99 / 100)))
          (F32.div (F32.round (1 / 100)) (F32.round (2 / 100))) :=
  have h := fps_stays_nonnegative constructedGame 20
    (by simp only [constructedGame, Game.new, F32.isFinite, decide_eq_true_eq]; norm_num)
    (by simp only [constructedGame, Game.new, F32.le, decide_eq_true_eq]; norm_num)
  have he : elapsed constructedGame 20 = F32.round (2 / 100) := by
    rw [show (20 : Int) = 0 + 20 from rfl, elapsed_20ms constructedGame 0 rfl rfl]
  have hmin : F32.le MIN_FRAME_TIME (elapsed constructedGame 20) = true := by
    rw [he, round_2_100, MIN_FRAME_TIME_eq]
    simp only [F32.le, decide_eq_true_eq]
    norm_num
  ⟨h.1, h.2.1, (h.2.2.1 hmin).2.trans (by rw [he]; rfl)⟩

/-- C12: the configuration that `GraphicsSystem::reset` passes to the backend is computed
from the current width, height, fullscreen flag and window handle alone: every field
is given below, two systems with the same four settings pass the same
configuration whatever `d3dpp` and `pMode` held, a second reset passes it again, and
it is the configuration that the handler of `Game` hands over in its reset call. -/
theorem reset_recomputes_configuration (gs gs1 : GraphicsSystem) (r r1 : HRESULT)
    (hw : gs1.width = gs.width) (hh : gs1.height = gs.height)
    (hf : gs1.fullscreen = gs.fullscreen) (hwnd : gs1.hwnd = gs.hwnd) :
    (reset gs1 r1).2.2 = (reset gs r).2.2
    ∧ (reset gs r).2.2 =
        { BackBufferWidth := toUINT gs.width
          BackBufferHeight := toUINT gs.height
          BackBufferFormat := if gs.fullscreen then D3DFMT_X8R8G8B8 else D3DFMT_UNKNOWN
          BackBufferCount := 1
          MultiSampleType := 0
          MultiSampleQuality := 0
          SwapEffect := D3DSWAPEFFECT_DISCARD
          hDeviceWindow := gs.hwnd
          Windowed := !gs.fullscreen
          EnableAutoDepthStencil := false
          AutoDepthStencilFormat := 0
          Flags := 0
          FullScreen_RefreshRateInHz := 0
          PresentationInterval := D3DPRESENT_INTERVAL_IMMEDIATE }
    ∧ (reset gs r).2.1.d3dpp = (reset gs r).2.2
    ∧ (reset (reset gs r).2.1 r1).2.2 = (reset gs r).2.2
    ∧ (∀ (pp : D3DPRESENT_PARAMETERS) (pm : D3DDISPLAYMODE),
        (reset { gs with d3dpp := pp, pMode := pm } r).2.2 = (reset gs r).2.2)
    ∧ (∀ (g : Game) (env : TickEnv), g.graphics = gs →
        (getDeviceState g.graphics env.testCooperativeLevel).1 = D3DERR_DEVICENOTRESET →
        (newEvents g (handleLostGraphicsDevice g env)).filter Event.isReset =
          [Event.reset (reset gs env.deviceReset).2.2 env.deviceReset]) := by
  refine ⟨?_, ?_, ?_, ?_, ?_, ?_⟩
  · simp [reset, initD3DPresentaionParameters, hw, hh, hf, hwnd]
  · simp [reset, initD3DPresentaionParameters]
  · simp [reset, initD3DPresentaionParameters]
  · simp [reset, initD3DPresentaionParameters]
  · intro pp pm
    simp [reset, initD3DPresentaionParameters]
  · intro g env hg hq
    have hpp : (reset gs env.deviceReset).2.2 = (initD3DPresentaionParameters g.graphics).d3dpp := by
      rw [hg]; simp [reset, initD3DPresentaionParameters]
    rw [hpp]
    by_cases hr : FAILED env.deviceReset = true
    · rw [newEvents_of_trace _ _ _ (handle_notreset_fail g env hq hr).1]
      simp [List.filter_cons, Event.isReset]
    · have hr2 : FAILED env.deviceReset = false := by simpa using hr
      rw [newEvents_of_trace _ _ _ (handle_notreset_ok g env hq hr2).1]
      simp [List.filter_cons, Event.isReset]

/-- Witness of C12: the sample graphics system and the same system with a stale
fullscreen configuration in `d3dpp` pass the same configuration to the reset. -/
theorem reset_recomputes_configuration_witness :
    (reset staleGraphics E_FAIL).2.2 = (reset sampleGame.graphics D3D_OK).2.2
    ∧ (reset (reset sampleGame.graphics D3D_OK).2.1 E_FAIL).2.2 =
        (reset sampleGame.graphics D3D_OK).2.2 :=
  have h := reset_recomputes_configuration sampleGame.graphics staleGraphics D3D_OK E_FAIL
    rfl rfl rfl rfl
  ⟨h.1, h.2.2.2.1⟩

/-! ## Claims on the order of calls in `run` -/

/-- On the sample game, 1 ms after the start, the time to sleep is 3 ms: the `float`
product `(MIN_FRAME_TIME - frameTime) * 1000` is 16777215 / 2^22, just below 4. -/
theorem sleep_1ms :
    toDWORD (F32.mul (F32.sub MIN_FRAME_TIME (F32.round (1 / 1000))) (F32.ofInt 1000)) = 3 := by
  rw [MIN_FRAME_TIME_eq, round_1_1000, ofInt_1000]
  simp only [F32.sub, F32.neg, F32.add, F32.mul]
  rw [F32.round_eq_of_pos (5368709 / 2 ^ 30 + -(8589935 / 2 ^ 33)) (-8) 8589934 (by norm_num)
    (by norm_num) (Or.inl (by norm_num)) (by norm_num) (by norm_num [abs_lt]) (by norm_num)]
  simp only [F32.mul]
  rw [F32.round_eq_of_pos _ 1 16777215 (by norm_num) (by norm_num)
    (Or.inl (by norm_num)) (by norm_num) (by norm_num [abs_lt]) (by norm_num)]
  have hfl : Int.floor ((((16777215 : Int) : ℚ)) * 2 ^ ((1 : Int) - 23)) = 3 := by
    rw [Int.floor_eq_iff]
    constructor <;> norm_num
  simp only [toDWORD]
  rw [if_pos (by constructor <;> norm_num), hfl]
  rfl

/-- On the sample game, 1 ms after the start, it is not yet time. -/
theorem sample_not_yet : F32.lt (elapsed sampleGame 1) MIN_FRAME_TIME = true := by
  rw [show (1 : Int) = 0 + 1 from rfl, elapsed_1ms sampleGame 0 rfl rfl, round_1_1000,
    MIN_FRAME_TIME_eq]
  simp only [F32.lt, decide_eq_true_eq]
  norm_num

/-- On the sample game, 20 ms after the start, it is time, and the frame time is not
clamped. -/
theorem sample_proceed :
    F32.lt (elapsed sampleGame 20) MIN_FRAME_TIME = false
    ∧ F32.min (elapsed sampleGame 20) MAX_FRAME_TIME = F32.round (2 / 100) := by
  rw [show (20 : Int) = 0 + 20 from rfl, elapsed_20ms sampleGame 0 rfl rfl]
  constructor
  · rw [round_2_100, MIN_FRAME_TIME_eq]
    simp only [F32.lt, decide_eq_false_iff_not]
    norm_num
  · have h : F32.lt MAX_FRAME_TIME (F32.round (2 / 100)) = false := by
      rw [round_2_100, MAX_FRAME_TIME_eq]
      simp only [F32.lt, decide_eq_false_iff_not]
      norm_num
    simp [F32.min, h]

/-- C13: when `timeToUpdate` says not yet, `run` returns at once: its calls are the read
of the counter, `timeBeginPeriod(1)`, the `Sleep` of the computed `sleepTime` and
`timeEndPeriod(1)`, so no host, render or input callback. When it says proceed and the
game is not paused, the calls after the read of the counter are exactly, in this order:
`update`, `ai`, `collisions`, `input.vibrateControllers` with the clamped frame time,
then those of `renderGame` (the scene with the host `render`, the device-state query
and what the handler does on it, the present), then `input.readControllers` and
`input.clear(KEYS_PRESSED)`. When the game is paused the four simulation calls are
absent and the rest is the same. -/
theorem run_call_order (g : Game) (env : TickEnv) :
    ((timeToUpdate g env.now).1 = false →
        run g env = (timeToUpdate g env.now).2
        ∧ newEvents g (run g env) =
            [Event.queryPerformanceCounter, Event.timeBeginPeriod 1,
             Event.sleep
               (toDWORD (F32.mul (F32.sub MIN_FRAME_TIME (elapsed g env.now)) (F32.ofInt 1000))),
             Event.timeEndPeriod 1])
    ∧ ((timeToUpdate g env.now).1 = true → g.paused = false →
        (timeToUpdate g env.now).2.frameTime = F32.min (elapsed g env.now) MAX_FRAME_TIME
        ∧ F32.lt MAX_FRAME_TIME (timeToUpdate g env.now).2.frameTime = false
        ∧ run g env =
            (renderGame
              ((timeToUpdate g env.now).2.emit
                [Event.update, Event.ai, Event.collisions,
                 Event.vibrateControllers (timeToUpdate g env.now).2.frameTime]) env).emit
              [Event.readControllers, Event.inputClear InputClear.KEYS_PRESSED]
        ∧ newEvents g (run g env) =
            [Event.queryPerformanceCounter, Event.update, Event.ai, Event.collisions,
             Event.vibrateControllers (F32.min (elapsed g env.now) MAX_FRAME_TIME)] ++
            sceneEvents env ++
            handlerEvents g.graphics env ++
            [Event.showBackbuffer env.present, Event.readControllers,
             Event.inputClear InputClear.KEYS_PRESSED])
    ∧ ((timeToUpdate g env.now).1 = true → g.paused = true →
        newEvents g (run g env) =
            [Event.queryPerformanceCounter] ++
            sceneEvents env ++
            handlerEvents g.graphics env ++
            [Event.showBackbuffer env.present, Event.readControllers,
             Event.inputClear InputClear.KEYS_PRESSED]) := by
  have hall : (timeToUpdate g env.now).1 = true →
      (timeToUpdate g env.now).2.frameTime = F32.min (elapsed g env.now) MAX_FRAME_TIME
      ∧ (timeToUpdate g env.now).2.paused = g.paused
      ∧ newEvents g (run g env) =
          Event.queryPerformanceCounter ::
            simulationEvents g.paused (F32.min (elapsed g env.now) MAX_FRAME_TIME) ++
          sceneEvents env ++ handlerEvents g.graphics env ++
          [Event.showBackbuffer env.present, Event.readControllers,
           Event.inputClear InputClear.KEYS_PRESSED] := by
    intro h
    have he := (timeToUpdate_true_iff g env.now).1 h
    have ht := timeToUpdate_proceed g env.now he
    have hft : (timeToUpdate g env.now).2.frameTime =
        F32.min (elapsed g env.now) MAX_FRAME_TIME := by rw [ht]
    have hpa : (timeToUpdate g env.now).2.paused = g.paused := by rw [ht]
    have hgr : (timeToUpdate g env.now).2.graphics = g.graphics := by rw [ht]
    have htr : (timeToUpdate g env.now).2.trace = g.trace ++ [Event.queryPerformanceCounter] := by
      rw [ht]
    refine ⟨hft, hpa, ?_⟩
    apply newEvents_of_trace
    rw [run_eq g env h]
    have hr := renderGame_events
      ((timeToUpdate g env.now).2.emit
        (simulationEvents (timeToUpdate g env.now).2.paused
          (timeToUpdate g env.now).2.frameTime)) env
    simp only [Game.emit] at hr ⊢
    rw [hr, htr, hgr, hpa, hft]
    simp
  refine ⟨?_, ?_, ?_⟩
  · intro h
    have he : F32.lt (elapsed g env.now) MIN_FRAME_TIME = true := by
      by_contra hc
      have hc2 : F32.lt (elapsed g env.now) MIN_FRAME_TIME = false := by simpa using hc
      rw [(timeToUpdate_true_iff g env.now).2 hc2] at h
      exact absurd h (by decide)
    have hrun : run g env = (timeToUpdate g env.now).2 := by
      simp only [run, h, if_true]
    refine ⟨hrun, ?_⟩
    rw [hrun, timeToUpdate_not_yet g env.now he]
    exact newEvents_of_trace _ _ _ rfl
  · intro h hp
    obtain ⟨hft, hpa, htr⟩ := hall h
    have hrun := run_eq g env h
    rw [hpa, hp] at hrun
    refine ⟨hft, ?_, ?_, ?_⟩
    · rw [hft]
      by_cases hm : F32.lt MAX_FRAME_TIME (elapsed g env.now) = true
      · rw [show F32.min (elapsed g env.now) MAX_FRAME_TIME = MAX_FRAME_TIME by
          simp [F32.min, hm], MAX_FRAME_TIME_eq]
        simp [F32.lt]
      · have hm2 : F32.lt MAX_FRAME_TIME (elapsed g env.now) = false := by simpa using hm
        rw [show F32.min (elapsed g env.now) MAX_FRAME_TIME = elapsed g env.now by
          simp [F32.min, hm2]]
        exact hm2
    · simpa [simulationEvents] using hrun
    · rw [htr]
      simp [simulationEvents, hp]
  · intro h hp
    obtain ⟨_, _, htr⟩ := hall h
    rw [htr]
    simp [simulationEvents, hp]

/-- Witness of C13: on the sample game a tick 1 ms after the start only reads the counter
and sleeps 3 ms; a tick 20 ms after the start runs the simulation calls with the frame
time `0.02f`, then the scene, the device-state query and the present, then the two input
calls. -/
theorem run_call_order_witness :
    newEvents sampleGame (run sampleGame { sampleEnv with now := 1 }) =
      [Event.queryPerformanceCounter, Event.timeBeginPeriod 1, Event.sleep 3,
       Event.timeEndPeriod 1]
    ∧ newEvents sampleGame (run sampleGame sampleEnv) =
      [Event.queryPerformanceCounter, Event.update, Event.ai, Event.collisions,
       Event.vibrateControllers (F32.round (2 / 100)),
       Event.beginScene 0, Event.render, Event.endScene 0,
       Event.getDeviceState 0,
       Event.showBackbuffer 0, Event.readControllers,
       Event.inputClear InputClear.KEYS_PRESSED] :=
  have h := run_call_order sampleGame { sampleEnv with now := 1 }
  have k := run_call_order sampleGame sampleEnv
  have h1 : (timeToUpdate sampleGame ({ sampleEnv with now := 1 } : TickEnv).now).1 = false := by
    show (timeToUpdate sampleGame 1).1 = false
    rw [timeToUpdate_not_yet sampleGame 1 sample_not_yet]
  have k1 : (timeToUpdate sampleGame sampleEnv.now).1 = true :=
    (timeToUpdate_true_iff sampleGame 20).2 sample_proceed.1
  have hsl : toDWORD (F32.mul (F32.sub MIN_FRAME_TIME
      (elapsed sampleGame ({ sampleEnv with now := 1 } : TickEnv).now)) (F32.ofInt 1000)) = 3 := by
    show toDWORD (F32.mul (F32.sub MIN_FRAME_TIME (elapsed sampleGame (0 + 1)))
      (F32.ofInt 1000)) = 3
    rw [elapsed_1ms sampleGame 0 rfl rfl, sleep_1ms]
  have kft : F32.min (elapsed sampleGame sampleEnv.now) MAX_FRAME_TIME = F32.round (2 / 100) :=
    sample_proceed.2
  have ks : sceneEvents sampleEnv =
      [Event.beginScene 0, Event.render, Event.endScene 0] := by decide
  have kh : handlerEvents sampleGame.graphics sampleEnv = [Event.getDeviceState 0] := by decide
  ⟨(h.1 h1).2.trans (by rw [hsl]),
   (k.2.1 k1 rfl).2.2.2.trans (by rw [kft, ks, kh]; rfl)⟩

/-! ## Claims on the mode chosen by a fullscreen `initialize` -/

/-- Against a requested rate of 0 the test of the loop is the test on width and height. -/
theorem modeMatches_of_zero_rate (pp : D3DPRESENT_PARAMETERS) (m : D3DDISPLAYMODE)
    (h0 : pp.FullScreen_RefreshRateInHz = 0) :
    modeMatches pp m = sizeMatches pp.BackBufferWidth pp.BackBufferHeight m := by
  simp [modeMatches, sizeMatches, h0, Bool.and_comm]

/-- The mode loop stops at the first mode that passes the test and leaves it in `pMode`. -/
theorem isAdapterCompatibleLoop_found (modes : List D3DDISPLAYMODE) (m : D3DDISPLAYMODE) :
    ∀ (gs : GraphicsSystem) (i : Nat), modes.find? (modeMatches gs.d3dpp) = some m →
      (isAdapterCompatibleLoop gs i modes).1 = true
      ∧ (isAdapterCompatibleLoop gs i modes).2.1 = { gs with result := D3D_OK, pMode := m } := by
  induction modes with
  | nil => intro gs i h; simp at h
  | cons m0 rest ih =>
    intro gs i h
    by_cases hm : modeMatches gs.d3dpp m0 = true
    · rw [List.find?_cons_of_pos _ hm] at h
      have hmm : m0 = m := by simpa using h
      subst hmm
      simp [isAdapterCompatibleLoop, hm]
    · rw [List.find?_cons_of_neg _ hm] at h
      have hm2 : modeMatches gs.d3dpp m0 = false := by simpa using hm
      have := ih { gs with result := D3D_OK, pMode := m0 } (i + 1) h
      simp only [isAdapterCompatibleLoop, hm2, Bool.false_eq_true, if_false]
      exact ⟨this.1, this.2⟩

/-- A list of calls without `CreateDevice` hands over no configuration. -/
theorem createdWith_of_countP (es : List Event) (h : es.countP Event.isCreateDevice = 0) :
    createdWith es = [] := by
  induction es with
  | nil => rfl
  | cons e rest ih =>
    rw [List.countP_cons] at h
    cases e <;> first
      | exact ih (by simpa [Event.isCreateDevice] using h)
      | (simp [Event.isCreateDevice] at h)

theorem createdWith_append (es fs : List Event) :
    createdWith (es ++ fs) = createdWith es ++ createdWith fs := by
  induction es with
  | nil => rfl
  | cons e rest ih => cases e <;> simp [createdWith, ih]

/-- Compatibility check of a fullscreen system one of whose adapter modes passes the
test: the refresh rate of the first such mode is written into the configuration. -/
theorem handleGraphicsCompatibility_found (gs : GraphicsSystem) (env : InitEnv)
    (m : D3DDISPLAYMODE) (hf : gs.fullscreen = true)
    (hfind : (env.adapterModes gs.d3dpp.BackBufferFormat).find? (modeMatches gs.d3dpp) = some m) :
    (handleGraphicsCompatibility gs env).value = Except.ok
        (if (env.caps.DevCaps &&& D3DDEVCAPS_HWTRANSFORMANDLIGHT) = 0 ∨
            env.caps.VertexShaderVersion < D3DVS_VERSION 1 1 then
          D3DCREATE_SOFTWARE_VERTEXPROCESSING
        else D3DCREATE_HARDWARE_VERTEXPROCESSING)
    ∧ (handleGraphicsCompatibility gs env).graphics =
        { gs with
          result := env.getDeviceCaps
          pMode := m
          d3dpp := { gs.d3dpp with FullScreen_RefreshRateInHz := m.RefreshRate } }
    ∧ createdWith (handleGraphicsCompatibility gs env).events = [] := by
  obtain ⟨h1, h2⟩ := isAdapterCompatibleLoop_found _ m gs 0 hfind
  have h3 := isAdapterCompatibleLoop_events (env.adapterModes gs.d3dpp.BackBufferFormat) gs 0
  refine ⟨?_, ?_, ?_⟩
  · simp [handleGraphicsCompatibility, isAdapterCompatible, hf, h1]
  · simp [handleGraphicsCompatibility, isAdapterCompatible, hf, h1, h2]
  · apply createdWith_of_countP
    simp [handleGraphicsCompatibility, isAdapterCompatible, hf, h1, h3, List.countP_cons,
      Event.isCreateDevice]

/-- C14: in a fullscreen `initialize` (Direct3D created) the compatibility check runs on
the configuration just computed from zero, whose requested refresh rate is 0: the test
of the loop is the test on width and height alone, `isAdapterCompatible` answers true
exactly when some enumerated mode has the requested width and height, and
`CreateDevice` is then called once, with the refresh rate of the first such mode in
enumeration order written into that configuration. -/
theorem fullscreen_takes_first_matching_mode (gs : GraphicsSystem) (hw : HWND) (w h : Int)
    (env : InitEnv) (hd : env.direct3DCreate9 = true) :
    requestedRefreshRate { gs with hwnd := hw, width := w, height := h, fullscreen := true } = 0
    ∧ (initD3DPresentaionParameters
        { gs with hwnd := hw, width := w, height := h, fullscreen := true,
                  direct3d := true }).d3dpp =
        ⟨toUINT w, toUINT h, D3DFMT_X8R8G8B8, 1, 0, 0, D3DSWAPEFFECT_DISCARD, hw, false, false,
          0, 0, 0, D3DPRESENT_INTERVAL_IMMEDIATE⟩
    ∧ (∀ m : D3DDISPLAYMODE,
        modeMatches (initD3DPresentaionParameters
          { gs with hwnd := hw, width := w, height := h, fullscreen := true,
                    direct3d := true }).d3dpp m = sizeMatches (toUINT w) (toUINT h) m)
    ∧ ((isAdapterCompatible (initD3DPresentaionParameters
          { gs with hwnd := hw, width := w, height := h, fullscreen := true,
                    direct3d := true }) env.adapterModes).1 = true ↔
        ∃ m ∈ env.adapterModes D3DFMT_X8R8G8B8, m.Width = toUINT w ∧ m.Height = toUINT h)
    ∧ (∀ m : D3DDISPLAYMODE,
        (env.adapterModes D3DFMT_X8R8G8B8).find? (sizeMatches (toUINT w) (toUINT h)) = some m →
        createdWith ( GraphicsSystem.initialize gs hw w h true env).events =
          [⟨toUINT w, toUINT h, D3DFMT_X8R8G8B8, 1, 0, 0, D3DSWAPEFFECT_DISCARD, hw, false,
            false, 0, 0, m.RefreshRate, D3DPRESENT_INTERVAL_IMMEDIATE⟩]
        ∧ ( GraphicsSystem.initialize gs hw w h true env).graphics.d3dpp.FullScreen_RefreshRateInHz
            = m.RefreshRate
        ∧ ( GraphicsSystem.initialize gs hw w h true env).graphics.pMode = m) := by
  have hpp : (initD3DPresentaionParameters
        { gs with hwnd := hw, width := w, height := h, fullscreen := true,
                  direct3d := true }).d3dpp =
        ⟨toUINT w, toUINT h, D3DFMT_X8R8G8B8, 1, 0, 0, D3DSWAPEFFECT_DISCARD, hw, false, false,
          0, 0, 0, D3DPRESENT_INTERVAL_IMMEDIATE⟩ := by
    simp [initD3DPresentaionParameters]
  have hmatch : ∀ m : D3DDISPLAYMODE,
      modeMatches (initD3DPresentaionParameters
        { gs with hwnd := hw, width := w, height := h, fullscreen := true,
                  direct3d := true }).d3dpp m = sizeMatches (toUINT w) (toUINT h) m := by
    intro m
    rw [modeMatches_of_zero_rate _ _ (by rw [hpp]), hpp]
  have hfun : modeMatches (initD3DPresentaionParameters
        { gs with hwnd := hw, width := w, height := h, fullscreen := true,
                  direct3d := true }).d3dpp = sizeMatches (toUINT w) (toUINT h) :=
    funext hmatch
  have hfmt : (initD3DPresentaionParameters
        { gs with hwnd := hw, width := w, height := h, fullscreen := true,
                  direct3d := true }).d3dpp.BackBufferFormat = D3DFMT_X8R8G8B8 := by
    rw [hpp]
  refine ⟨by simp [requestedRefreshRate, initD3DPresentaionParameters], hpp, hmatch, ?_, ?_⟩
  · simp only [isAdapterCompatible, hfmt]
    constructor
    · intro htrue
      by_contra hnone
      have hall : ∀ m ∈ env.adapterModes D3DFMT_X8R8G8B8,
          modeMatches (initD3DPresentaionParameters
            { gs with hwnd := hw, width := w, height := h, fullscreen := true,
                      direct3d := true }).d3dpp m = false := by
        intro m hm
        rw [hmatch]
        by_contra hc
        have hs : sizeMatches (toUINT w) (toUINT h) m = true := by simpa using hc
        simp only [sizeMatches, Bool.and_eq_true, decide_eq_true_eq] at hs
        exact hnone ⟨m, hm, hs.1, hs.2⟩
      rw [isAdapterCompatibleLoop_none _ _ 0 hall] at htrue
      exact absurd htrue (by decide)
    · rintro ⟨m, hm, hW, hH⟩
      cases hfind : (env.adapterModes D3DFMT_X8R8G8B8).find?
          (sizeMatches (toUINT w) (toUINT h)) with
      | none =>
        have := List.find?_eq_none.1 hfind m hm
        simp [sizeMatches, hW, hH] at this
      | some m1 =>
        rw [← hfun] at hfind
        exact (isAdapterCompatibleLoop_found _ m1 _ 0 hfind).1
  · intro m hfind
    have key := handleGraphicsCompatibility_found (initD3DPresentaionParameters
        { gs with hwnd := hw, width := w, height := h, fullscreen := true,
                  direct3d := true }) env m rfl (by rw [hfmt, hfun]; exact hfind)
    rw [hpp] at key
    simp only [ GraphicsSystem.initialize, hd, Bool.true_eq_false, if_false]
    rw [key.1]
    by_cases hc : FAILED env.createDevice = true <;>
      simp [hc, createdWith, createdWith_append, key.2.1, key.2.2]

/-- Witness of C14: 640 x 480 fullscreen on the adapter with three modes is created at
60 Hz, the rate of the first 640 x 480 mode. -/
theorem fullscreen_takes_first_matching_mode_witness :
    createdWith ( GraphicsSystem.initialize freshGraphics 7 640 480 true threeModeEnv).events =
        [⟨toUINT 640, toUINT 480, D3DFMT_X8R8G8B8, 1, 0, 0, D3DSWAPEFFECT_DISCARD, 7, false,
          false, 0, 0, 60, D3DPRESENT_INTERVAL_IMMEDIATE⟩]
    ∧ ( GraphicsSystem.initialize freshGraphics 7 640 480 true threeModeEnv).graphics.pMode =
        ⟨640, 480, 60, 22⟩ :=
  have h := (fullscreen_takes_first_matching_mode freshGraphics 7 640 480 threeModeEnv rfl).2.2.2.2
    ⟨640, 480, 60, 22⟩ (by decide)
  ⟨h.1, h.2.2⟩

end BexEngine
